import Mathlib

/-!
Verification of the session/credential lifecycle subsystem of the
storywonderbackend repository.

The development shallowly embeds the relevant TypeScript sources:

* `src/db/schema.ts` — the four tables (users, user_sessions,
  oauth_accounts, email_verifications) with their unique constraints;
* `src/middlewares/authMiddleware.ts` (src/unnamed/part_009) —
  `generateJWT` / `verifyJWT`, including the fallback signing secret and
  the second-granularity expiry of the jsonwebtoken library;
* `src/services/authService.ts` (src/unnamed/part_021, first snapshot) —
  `registerUser`, `authenticateUser`, `createSessionForUser`,
  `validateToken`, `invalidateSession`, `cleanupExpiredSessions`,
  `sendVerificationEmail`, `verifyEmail`, `resendVerificationEmail`;
* `src/services/userService.ts` (src/unnamed/part_025) —
  `getUserByEmail`, `findOrCreateOAuthUser`;
* `src/controllers/auth.controller.ts` — the register handler;
* `src/services/userService.ts` (second snapshot, lines 278-303) —
  `canAccessStory`.

Database rows live in Lean lists in insertion order; `limit 1` queries
become `List.find?`.  Timestamps are naturals counting milliseconds
(`Date.now()`), and JWT `iat`/`exp` are naturals counting seconds, with
the division by 1000 made explicit exactly where the jsonwebtoken
library performs it.  UUID generation (`uuidv4`) is modelled by a
per-process counter carried in the world state; `Math.random`-derived
verification codes are drawn from an explicit supply in the world
state.  Thrown-and-caught database errors (unique-constraint conflicts)
appear as `Option` results of the insert primitives.
-/

namespace StoryWonder

/-- subscription_level enum from src/db/schema.ts. -/
inductive SubLevel
  | free
  | premium
  | pro
deriving DecidableEq, Repr

/-- auth_provider enum (the authService only ever passes google/apple). -/
inductive Provider
  | google
  | apple
  | email
deriving DecidableEq, Repr

/-- Row of the users table (src/db/schema.ts lines 11-23).  The first
authService snapshot also writes a `role` column, but the users table has
no such column, so it is not part of the row. -/
structure User where
  id : Nat
  email : String
  firstName : Option String := none
  lastName : Option String := none
  profileImageUrl : Option String := none
  password : Option String := none
  emailVerified : Bool := false
  subscriptionLevel : SubLevel := .free
  storiesGenerated : Nat := 0
  createdAt : Nat := 0
  updatedAt : Nat := 0
deriving DecidableEq, Repr

/-- Row of the user_sessions table (src/db/schema.ts lines 42-48). -/
structure Session where
  id : Nat
  userId : Nat
  token : Nat
  expiresAt : Nat
  createdAt : Nat := 0
deriving DecidableEq, Repr

/-- Row of the oauth_accounts table (src/db/schema.ts lines 26-39). -/
structure OAuthAccount where
  id : Nat
  userId : Nat
  provider : Provider
  providerAccountId : String
  accessToken : Option String := none
  refreshToken : Option String := none
  idToken : Option String := none
  createdAt : Nat := 0
  updatedAt : Nat := 0
deriving DecidableEq, Repr

/-- Row of the email_verifications table used by the authService. -/
structure EmailVerification where
  id : Nat
  userId : Nat
  email : String
  verificationCode : String
  expiresAt : Nat
  verified : Bool := false
  createdAt : Nat := 0
deriving DecidableEq, Repr

/-- The relational store: the four tables the subsystem touches, each a
list of rows in insertion order. -/
structure DB where
  users : List User := []
  userSessions : List Session := []
  oauthAccounts : List OAuthAccount := []
  emailVerifications : List EmailVerification := []
deriving DecidableEq, Repr

/-- db.insert(users): the users table has primary key id and a unique
index on email, so the insert throws (here: none) on a conflict with
either. -/
def insertUser (u : User) (db : DB) : Option DB :=
  if db.users.any (fun v => v.id == u.id || v.email == u.email) then none
  else some { db with users := db.users ++ [u] }

/-- db.insert(userSessions): primary key id, unique index on token. -/
def insertSession (s : Session) (db : DB) : Option DB :=
  if db.userSessions.any (fun v => v.id == s.id || v.token == s.token) then none
  else some { db with userSessions := db.userSessions ++ [s] }

/-- db.insert(oauthAccounts): primary key id; the schema declares no
unique index on (provider, providerAccountId). -/
def insertOAuthAccount (a : OAuthAccount) (db : DB) : Option DB :=
  if db.oauthAccounts.any (fun v => v.id == a.id) then none
  else some { db with oauthAccounts := db.oauthAccounts ++ [a] }

/-- db.insert(emailVerifications): primary key id. -/
def insertEmailVerification (v : EmailVerification) (db : DB) : Option DB :=
  if db.emailVerifications.any (fun x => x.id == v.id) then none
  else some { db with emailVerifications := db.emailVerifications ++ [v] }

/-- Process-wide configuration read from process.env. -/
structure Env where
  jwtSecret : Option String := none
  jwtExpiresInSeconds : Option Nat := none
  nodeEnv : String := "development"
deriving DecidableEq, Repr

/-- Claims carried by the signed token, as written by generateJWT
(src/unnamed/part_009 lines 334-347): userId always, email and sessionId
when provided. -/
structure JwtPayload where
  userId : Nat
  email : Option String := none
  sessionId : Option Nat := none
deriving DecidableEq, Repr

/-- A signed token.  iat and exp are in seconds as in the jsonwebtoken
library.  The signature is modelled by recording the signing key: a
verifier holding the same key accepts it, any other key rejects it. -/
structure Jwt where
  payload : JwtPayload
  iat : Nat
  exp : Nat
  sig : String
deriving DecidableEq, Repr

/-- process.env.JWT_SECRET with the fallback both generateJWT and
verifyJWT substitute when it is absent (part_009 lines 341 and 353). -/
def jwtSecretOf (env : Env) : String :=
  env.jwtSecret.getD "fallback-secret-for-development"

/-- generateJWT (part_009 lines 334-347).  jsonwebtoken floors the
current time to seconds for iat and adds the expiresIn span (default
7d = 604800 s, overridable via JWT_EXPIRES_IN). -/
def generateJWT (env : Env) (nowMs : Nat) (userId : Nat)
    (email : Option String) (sessionId : Option Nat) : Jwt :=
  let iat := nowMs / 1000
  { payload := { userId := userId, email := email, sessionId := sessionId }
    iat := iat
    exp := iat + env.jwtExpiresInSeconds.getD 604800
    sig := jwtSecretOf env }

/-- verifyJWT (part_009 lines 352-355).  jwt.verify checks the signature
and then throws TokenExpiredError when floor(now/1000) >= exp; a throw is
modelled as none. -/
def verifyJWT (env : Env) (nowMs : Nat) (t : Jwt) : Option JwtPayload :=
  if t.sig != jwtSecretOf env then none
  else if t.exp ≤ nowMs / 1000 then none
  else some t.payload

/-- Model of bcrypt.hash from the external bcryptjs library: an injective
tagged encoding of the plaintext and cost factor.  The random salt is
not modelled, so hashing is deterministic here; the service only relies
on compare(p, hash(p)) = true and compare(q, hash(p)) = false for
q different from p, which the encoding provides. -/
def bcryptHash (cost : Nat) (plaintext : String) : String :=
  "bcrypt-" ++ toString cost ++ "-" ++ plaintext

/-- Model of bcrypt.compare.  The service hashes exclusively with cost
factor 12 (part_021 line 49), so a digest matches exactly when it is the
cost-12 hash of the plaintext. -/
def bcryptCompare (plaintext digest : String) : Bool :=
  digest == bcryptHash 12 plaintext

/-- Mutable process state threaded through the service calls: the store,
the uuidv4 supply (a counter) and the Math.random supply feeding 6-digit
verification codes, plus the outcome of the external Resend email
dispatch. -/
structure World where
  db : DB := {}
  nextId : Nat := 0
  codes : List Nat := []
  emailWorks : Bool := true
deriving DecidableEq, Repr

/-- uuidv4(): the next fresh identifier the supply yields. -/
def uuidv4 (w : World) : Nat :=
  w.nextId

/-- Advance the identifier supply past the value uuidv4 just drew. -/
def tickId (w : World) : World :=
  { w with nextId := w.nextId + 1 }

/-- The 6-digit code Math.floor(100000 + Math.random() * 900000) would
produce next, drawn from the explicit supply. -/
def generatedCode (w : World) : String :=
  toString (100000 + w.codes.headD 0 % 900000)

/-- Advance the verification-code supply. -/
def popCode (w : World) : World :=
  { w with codes := w.codes.tail }

/-- The whitespace characters String.prototype.trim strips (the ASCII
ones suffice here). -/
def isSpaceChar (c : Char) : Bool :=
  c == ' ' || c == '\t' || c == '\n' || c == '\r'

/-- Drop leading whitespace characters. -/
def dropLeadingSpace : List Char → List Char
  | [] => []
  | c :: cs => if isSpaceChar c then dropLeadingSpace cs else c :: cs

/-- JS String.prototype.trim, evaluated on the character list. -/
def trimString (s : String) : String :=
  ⟨(dropLeadingSpace (dropLeadingSpace s.data).reverse).reverse⟩

/-- JS String.prototype.toLowerCase (ASCII model). -/
def lowerString (s : String) : String :=
  ⟨s.data.map Char.toLower⟩

/-- email.toLowerCase().trim() as applied throughout the authService. -/
def normalizeEmail (email : String) : String :=
  trimString (lowerString email)

/-- Result of createSessionForUser (part_021 lines 32-35). -/
structure SessionResult where
  token : Jwt
  expiresAt : Nat
deriving DecidableEq, Repr

/-- AuthService.createSessionForUser (part_021 lines 155-191): mint a
fresh session id, store a session row expiring in 7 days whose token
column holds the raw session id, look the user up for the email claim,
and sign a JWT binding (userId, email, sessionId).  A failed insert or a
missing user is caught and yields none; the session row inserted before
a missing-user failure is not rolled back. -/
def createSessionForUser (env : Env) (now : Nat) (userId : Nat) (w : World) :
    Option SessionResult × World :=
  let sessionId := uuidv4 w
  let w := tickId w
  let expiresAt := now + 7 * 24 * 60 * 60 * 1000
  match insertSession
      { id := sessionId, userId := userId, token := sessionId
        expiresAt := expiresAt, createdAt := now } w.db with
  | none => (none, w)
  | some db =>
    let w := { w with db := db }
    match db.users.find? (fun u => u.id == userId) with
    | none => (none, w)
    | some u =>
      (some { token := generateJWT env now userId (some u.email) (some sessionId)
              expiresAt := expiresAt }, w)

/-- AuthService.invalidateSession (part_021 lines 253-262): delete the
session row by id and report true; deleting a missing row is no error. -/
def invalidateSession (sessionId : Nat) (w : World) : Bool × World :=
  (true,
    { w with db :=
        { w.db with userSessions :=
            w.db.userSessions.filter (fun s => !(s.id == sessionId)) } })

/-- AuthService.cleanupExpiredSessions (part_021 lines 267-277): the
where-clause compares expiresAt for equality with the current instant,
so only rows expiring at exactly this millisecond are deleted. -/
def cleanupExpiredSessions (now : Nat) (w : World) : World :=
  { w with db :=
      { w.db with userSessions :=
          w.db.userSessions.filter (fun s => !(s.expiresAt == now)) } }

/-- The projection validateToken returns (part_021 lines 236-243). -/
structure ValidatedUser where
  id : Nat
  email : String
  firstName : Option String
  lastName : Option String
  subscriptionLevel : SubLevel
  sessionId : Nat
deriving DecidableEq, Repr

/-- AuthService.validateToken (part_021 lines 196-248): verify the JWT
(a throw is caught to null), require a sessionId claim, load the session
row matching both the session id and the user id claims, treat a row
with expiresAt earlier than now as expired (deleting it lazily), then
load and project the owning user. -/
def validateToken (env : Env) (now : Nat) (token : Jwt) (w : World) :
    Option ValidatedUser × World :=
  match verifyJWT env now token with
  | none => (none, w)
  | some payload =>
    match payload.sessionId with
    | none => (none, w)
    | some sid =>
      match w.db.userSessions.find?
          (fun s => s.id == sid && s.userId == payload.userId) with
      | none => (none, w)
      | some session =>
        if session.expiresAt < now then
          (none, (invalidateSession sid w).2)
        else
          match w.db.users.find? (fun u => u.id == payload.userId) with
          | none => (none, w)
          | some u =>
            (some { id := u.id, email := u.email, firstName := u.firstName
                    lastName := u.lastName
                    subscriptionLevel := u.subscriptionLevel
                    sessionId := session.id }, w)

/-- AuthService.sendVerificationEmail (part_021 lines 398-446): generate
a 6-digit code and a fresh record id, delete every existing verification
record of the subject, insert the new unverified record with a 15-minute
expiry, then dispatch the email; the boolean reports dispatch success.
The firstName argument only decorates the email body and is dropped. -/
def sendVerificationEmail (now : Nat) (userId : Nat) (email : String)
    (w : World) : Bool × World :=
  let code := generatedCode w
  let w := popCode w
  let verificationId := uuidv4 w
  let w := tickId w
  let expiresAt := now + 15 * 60 * 1000
  let db := { w.db with emailVerifications :=
      w.db.emailVerifications.filter (fun v => !(v.userId == userId)) }
  match insertEmailVerification
      { id := verificationId, userId := userId, email := email
        verificationCode := code, expiresAt := expiresAt
        verified := false, createdAt := now } db with
  | none => (false, { w with db := db })
  | some db => (w.emailWorks, { w with db := db })

/-- Result of verifyEmail (part_021 lines 451-454). -/
structure VerifyEmailResult where
  success : Bool
  message : String
deriving DecidableEq, Repr

/-- AuthService.verifyEmail (part_021 lines 451-521): look up an
unverified record matching email and code (a miss yields a uniform
failure message), reject a record whose expiry is past, otherwise flip
the record and the user to verified and report success.  The welcome
email dispatched at the end does not touch the store. -/
def verifyEmail (now : Nat) (email code : String) (w : World) :
    Option VerifyEmailResult × World :=
  match w.db.emailVerifications.find?
      (fun v => v.email == email && v.verificationCode == code
        && v.verified == false) with
  | none =>
    (some { success := false, message := "Invalid verification code or email" }, w)
  | some verification =>
    if verification.expiresAt < now then
      (some { success := false, message := "Verification code has expired" }, w)
    else
      let verifications := w.db.emailVerifications.map (fun v =>
        if v.id == verification.id then { v with verified := true } else v)
      let flippedUsers := w.db.users.map (fun u =>
        if u.id == verification.userId then
          { u with emailVerified := true, updatedAt := now }
        else u)
      let db := { w.db with emailVerifications := verifications
                            users := flippedUsers }
      (some { success := true, message := "Email verified successfully" },
        { w with db := db })

/-- The public projection returned by registration and login
(part_021 lines 9-30, without the role field absent from the table). -/
structure AuthUserView where
  id : Nat
  email : String
  firstName : Option String
  lastName : Option String
  subscriptionLevel : SubLevel
deriving DecidableEq, Repr

/-- Registration and login both return the projected user and a signed
token. -/
structure AuthResult where
  user : AuthUserView
  token : Jwt
deriving DecidableEq, Repr

/-- AuthService.registerUser (part_021 lines 41-99): hash the password
with cost 12, insert the user under the lowercased trimmed email (a
unique-constraint throw is caught to none), send the verification email
with its result ignored, create the initial session, and return the
projected user with the session token. -/
def registerUser (env : Env) (now : Nat) (email password : String)
    (firstName lastName : Option String) (w : World) :
    Option AuthResult × World :=
  let hashedPassword := bcryptHash 12 password
  let userId := uuidv4 w
  let w := tickId w
  let newUser : User :=
    { id := userId, email := normalizeEmail email
      password := some hashedPassword
      firstName := firstName.map trimString
      lastName := lastName.map trimString
      emailVerified := false, subscriptionLevel := .free
      storiesGenerated := 0, createdAt := now, updatedAt := now }
  match insertUser newUser w.db with
  | none => (none, w)
  | some db =>
    let w := { w with db := db }
    let w := (sendVerificationEmail now newUser.id newUser.email w).2
    let session := createSessionForUser env now newUser.id w
    let w := session.2
    match session.1 with
    | none => (none, w)
    | some sessionResult =>
      (some { user := { id := newUser.id, email := newUser.email
                        firstName := newUser.firstName
                        lastName := newUser.lastName
                        subscriptionLevel := newUser.subscriptionLevel }
              token := sessionResult.token }, w)

/-- AuthService.authenticateUser (part_021 lines 106-150): look up the
user by lowercased trimmed email; a missing user, a user without a
password hash, and a failed bcrypt comparison all yield the same bare
null; otherwise create a session and return the projection and token. -/
def authenticateUser (env : Env) (now : Nat) (email password : String)
    (w : World) : Option AuthResult × World :=
  match w.db.users.find? (fun u => u.email == normalizeEmail email) with
  | none => (none, w)
  | some user =>
    match user.password with
    | none => (none, w)
    | some digest =>
      if bcryptCompare password digest then
        let session := createSessionForUser env now user.id w
        match session.1 with
        | none => (none, session.2)
        | some sessionResult =>
          (some { user := { id := user.id, email := user.email
                            firstName := user.firstName
                            lastName := user.lastName
                            subscriptionLevel := user.subscriptionLevel }
                  token := sessionResult.token }, session.2)
      else (none, w)

/-- UserService.getUserByEmail (part_025 lines 61-74): an exact-match
query on the email column, with no case normalization. -/
def getUserByEmail (email : String) (db : DB) : Option User :=
  db.users.find? (fun u => u.email == email)

/-- The responses AuthController.register can produce. -/
inductive RegisterResponse
  | badRequest (message : String)
  | conflict (message : String)
  | serverError (message : String)
  | created (result : AuthResult)
deriving DecidableEq, Repr

/-- AuthController.register (src/controllers/auth.controller.ts lines
10-66): reject missing fields, answer 409 Conflict when the exact-match
getUserByEmail pre-check finds the address, otherwise delegate to
registerUser and translate its null to a 500. -/
def registerController (env : Env) (now : Nat) (email password : String)
    (firstName lastName : Option String) (w : World) :
    RegisterResponse × World :=
  if email == "" || password == "" then
    (.badRequest "Email and password are required", w)
  else
    match getUserByEmail email w.db with
    | some _ => (.conflict "User with this email already exists", w)
    | none =>
      let attempt := registerUser env now email password firstName lastName w
      match attempt.1 with
      | none => (.serverError "Failed to create user", attempt.2)
      | some result => (.created result, attempt.2)

/-- The OAuth profile data passed to findOrCreateOAuthUser
(part_025 lines 27-37). -/
structure OAuthUserData where
  provider : Provider
  providerAccountId : String
  email : String
  firstName : String
  lastName : String
  profileImageUrl : Option String := none
  accessToken : String
  refreshToken : Option String := none
  idToken : Option String := none
deriving DecidableEq, Repr

/-- The inner-join condition of the first query in findOrCreateOAuthUser:
an oauth_accounts row for the (provider, providerAccountId) pair that
joins to an existing users row. -/
def oauthJoinMatch (d : OAuthUserData) (db : DB) (a : OAuthAccount) : Bool :=
  a.provider == d.provider && a.providerAccountId == d.providerAccountId
    && db.users.any (fun u => u.id == a.userId)

/-- The token-refresh update findOrCreateOAuthUser applies to every
oauth_accounts row matching the (provider, providerAccountId) pair
(part_025 lines 142-156). -/
def refreshTokensRow (now : Nat) (d : OAuthUserData) (a : OAuthAccount) :
    OAuthAccount :=
  if a.provider == d.provider && a.providerAccountId == d.providerAccountId then
    { a with accessToken := some d.accessToken
             refreshToken := d.refreshToken
             idToken := d.idToken, updatedAt := now }
  else a

/-- The link-insertion tail of findOrCreateOAuthUser (part_025 lines
189-205): insert a fresh oauth_accounts row binding the resolved user to
the external identity, carrying the tokens. -/
def createOAuthLink (now : Nat) (d : OAuthUserData) (user : User)
    (w : World) : Option User × World :=
  let oauthAccountId := uuidv4 w
  let w := tickId w
  match insertOAuthAccount
      { id := oauthAccountId, userId := user.id, provider := d.provider
        providerAccountId := d.providerAccountId
        accessToken := some d.accessToken
        refreshToken := d.refreshToken
        idToken := d.idToken
        createdAt := now, updatedAt := now } w.db with
  | none => (none, w)
  | some db => (some user, { w with db := db })

/-- UserService.findOrCreateOAuthUser (part_025 lines 110-210): when a
link for the (provider, providerAccountId) pair exists (joined to its
user), refresh the stored access/refresh/id tokens of every row matching
the pair and return the linked user; otherwise find the user by exact
email or create one (emailVerified = true), then insert a fresh link
carrying the tokens and return that user. -/
def findOrCreateOAuthUser (now : Nat) (d : OAuthUserData) (w : World) :
    Option User × World :=
  match w.db.oauthAccounts.find? (oauthJoinMatch d w.db) with
  | some account =>
    match w.db.users.find? (fun u => u.id == account.userId) with
    | none => (none, w)
    | some user =>
      let refreshed := w.db.oauthAccounts.map (refreshTokensRow now d)
      (some user, { w with db := { w.db with oauthAccounts := refreshed } })
  | none =>
    match getUserByEmail d.email w.db with
    | some user => createOAuthLink now d user w
    | none =>
      let userId := uuidv4 w
      let w := tickId w
      let newUser : User :=
        { id := userId, email := d.email
          firstName := if d.firstName == "" then none else some d.firstName
          lastName := if d.lastName == "" then none else some d.lastName
          profileImageUrl := d.profileImageUrl
          emailVerified := true, subscriptionLevel := .free }
      match insertUser newUser w.db with
      | none => (none, w)
      | some db => createOAuthLink now d newUser { w with db := db }

/-- AuthService.resendVerificationEmail (part_021 lines 526-551): a
missing user is false, an already verified user is a no-op true,
otherwise reissue via sendVerificationEmail. -/
def resendVerificationEmail (now : Nat) (email : String) (w : World) :
    Bool × World :=
  match w.db.users.find? (fun u => u.email == normalizeEmail email) with
  | none => (false, w)
  | some user =>
    if user.emailVerified then (true, w)
    else sendVerificationEmail now user.id user.email w

/-- The story fields the access check reads
(src/services/userService.ts). -/
structure Story where
  userId : Nat
  isPublic : Bool
deriving DecidableEq, Repr

/-- The slice of a Clerk user record the access check reads:
publicMetadata.role. -/
structure ClerkUser where
  id : Nat
  role : Option String := none
deriving DecidableEq, Repr

/-- getClerkUser from src/clerkAuth.ts, modelled as a lookup in the
external Clerk user directory. -/
def getClerkUser (clerkUsers : List ClerkUser) (userId : Nat) :
    Option ClerkUser :=
  clerkUsers.find? (fun u => u.id == userId)

/-- UserService.canAccessStory (src/services/userService.ts lines
278-303): owner, then public flag, then the Clerk admin role.  The
getOrCreateUser call made before the role check does not feed the
decision and is omitted. -/
def canAccessStory (clerkUsers : List ClerkUser) (userId : Nat)
    (story : Story) : Bool :=
  if story.userId == userId then true
  else if story.isPublic then true
  else
    match getClerkUser clerkUsers userId with
    | some clerkUser => clerkUser.role == some "admin"
    | none => false

/-- The predicate the spec words name: the subject carries an
administrative role, i.e. its Clerk record has publicMetadata.role
equal to admin. -/
def hasAdminRole (clerkUsers : List ClerkUser) (userId : Nat) : Bool :=
  match getClerkUser clerkUsers userId with
  | some clerkUser => clerkUser.role == some "admin"
  | none => false

/-- One call into the subsystem, with the wall-clock instant at which it
runs, for quantifying over arbitrary subsequent activity. -/
inductive Op
  | register (now : Nat) (email password : String)
      (firstName lastName : Option String)
  | login (now : Nat) (email password : String)
  | createSession (now : Nat) (userId : Nat)
  | validate (now : Nat) (token : Jwt)
  | logout (sessionId : Nat)
  | cleanup (now : Nat)
  | sendVerification (now : Nat) (userId : Nat) (email : String)
  | verifyCode (now : Nat) (email code : String)
  | resendVerification (now : Nat) (email : String)
  | oauthLogin (now : Nat) (data : OAuthUserData)

/-- The state transition an operation performs (its return value is
irrelevant here). -/
def applyOp (env : Env) (w : World) : Op → World
  | .register now e p f l => (registerUser env now e p f l w).2
  | .login now e p => (authenticateUser env now e p w).2
  | .createSession now uid => (createSessionForUser env now uid w).2
  | .validate now t => (validateToken env now t w).2
  | .logout sid => (invalidateSession sid w).2
  | .cleanup now => cleanupExpiredSessions now w
  | .sendVerification now uid e => (sendVerificationEmail now uid e w).2
  | .verifyCode now e c => (verifyEmail now e c w).2
  | .resendVerification now e => (resendVerificationEmail now e w).2
  | .oauthLogin now d => (findOrCreateOAuthUser now d w).2

/-- Run a sequence of operations. -/
def applyOps (env : Env) (ops : List Op) (w : World) : World :=
  ops.foldl (applyOp env) w

/-- Session rows only ever appear with identifiers drawn from the fresh
counter: any session of the later world is either an original one or
carries an id at least the earlier counter value. -/
def GrowsSessions (w w' : World) : Prop :=
  w.nextId ≤ w'.nextId ∧
    ∀ se ∈ w'.db.userSessions, se ∈ w.db.userSessions ∨ w.nextId ≤ se.id

/-- Recognizer for the successful register response. -/
def RegisterResponse.isCreated : RegisterResponse → Bool
  | .created _ => true
  | _ => false

/-- A registered user for concrete instantiations. -/
def egUser : User :=
  { id := 0, email := "alice@example.com"
    password := some (bcryptHash 12 "Secr3t!") }

/-- A store holding just that user. -/
def egWorld : World :=
  { db := { users := [egUser] }, nextId := 1, codes := [7, 8]
    emailWorks := true }

/-- A production-style configuration with a configured signing key. -/
def egEnv : Env :=
  { jwtSecret := some "k", jwtExpiresInSeconds := none
    nodeEnv := "production" }

/-- An empty store. -/
def emptyWorld : World :=
  { db := {}, nextId := 0, codes := [3, 4], emailWorks := true }

/-- A non-development configuration with the signing key absent. -/
def prodEnvNoSecret : Env :=
  { jwtSecret := none, jwtExpiresInSeconds := none, nodeEnv := "production" }

/-- An outstanding unverified code 123456 issued to egUser. -/
def egVerification : EmailVerification :=
  { id := 1, userId := 0, email := "alice@example.com"
    verificationCode := "123456", expiresAt := 900000
    verified := false, createdAt := 0 }

/-- A store holding the user and one outstanding unverified code. -/
def verifWorld : World :=
  { db := { users := [egUser], emailVerifications := [egVerification] }
    nextId := 2, codes := [5], emailWorks := true }

/-- The token createSessionForUser mints for egUser at t0 = 999 in
egWorld: iat floors to second 0, so the token expires at second 604800,
999 ms before the session row does. -/
def cxToken : Jwt :=
  { payload := { userId := 0, email := some "alice@example.com"
                 sessionId := some 1 }
    iat := 0, exp := 604800, sig := "k" }

/-- An unexpired session owned by user 1. -/
def mismatchSession : Session :=
  { id := 5, userId := 1, token := 5, expiresAt := 604800000, createdAt := 0 }

/-- A store holding that session. -/
def mismatchWorld : World :=
  { db := { users := [egUser], userSessions := [mismatchSession] }
    nextId := 6, codes := [], emailWorks := true }

/-- A signed unexpired token claiming session 5 but user 2. -/
def mismatchToken : Jwt :=
  { payload := { userId := 2, email := none, sessionId := some 5 }
    iat := 0, exp := 604800, sig := "k" }

/-- The options object built for the JWT strategy at module load of
config/passport (part_007 lines 8-14): secretOrKey is read straight
from process.env.JWT_SECRET with no fallback (the TypeScript non-null
assertion has no runtime effect, so an absent variable passes
undefined through). -/
structure JwtStrategyConf where
  secretOrKey : Option String
deriving DecidableEq, Repr

/-- The passport-jwt Strategy constructor: with no secretOrKeyProvider
given, it builds a provider from conf.secretOrKey when that value is
truthy (present and nonempty) and otherwise throws TypeError
JwtStrategy requires a secret or key.  A throw is modelled as
Except.error carrying the message; success returns the key the
strategy will verify with. -/
def newJwtStrategy (c : JwtStrategyConf) : Except String String :=
  match c.secretOrKey with
  | none => Except.error "JwtStrategy requires a secret or key"
  | some s =>
    if s = "" then Except.error "JwtStrategy requires a secret or key"
    else Except.ok s

/-- Module-load evaluation of config/passport (part_007): its top level
immediately runs passport.use(new JwtStrategy ...) with secretOrKey =
process.env.JWT_SECRET, so loading the module fails exactly when that
constructor throws. -/
def passportModuleLoad (env : Env) : Except String String :=
  newJwtStrategy { secretOrKey := env.jwtSecret }

/-- Process startup as wired: server.ts imports app.ts, app.ts imports
routes/auth.route.ts, which imports middlewares/passportAuthMiddleware
(part_010), which imports config/passport.  The passport module is
therefore evaluated before app.listen can run, and an exception escaping
its top level aborts the import chain: the process never starts. -/
def startProcess (env : Env) : Except String Unit :=
  match passportModuleLoad env with
  | Except.error e => Except.error e
  | Except.ok _ => Except.ok ()

/-- A token issuance by the running server: generateJWT (part_009) is
reachable only through routes served after a successful startup, so a
process that failed to start issues nothing. -/
def serverGenerateJWT (env : Env) (nowMs uid : Nat) (em : Option String)
    (sid : Option Nat) : Option Jwt :=
  match startProcess env with
  | Except.error _ => none
  | Except.ok _ => some (generateJWT env nowMs uid em sid)

/-- A token verification by the running server: verifyJWT (part_009) is
likewise reachable only through routes served after startup. -/
def serverVerifyJWT (env : Env) (nowMs : Nat) (t : Jwt) :
    Option JwtPayload :=
  match startProcess env with
  | Except.error _ => none
  | Except.ok _ => verifyJWT env nowMs t

/-! ## Helper lemmas -/

theorem find?_append_of_none {α} {p : α → Bool} {l₁ l₂ : List α}
    (h : l₁.find? p = none) : (l₁ ++ l₂).find? p = l₂.find? p := by
  rw [List.find?_append, h, Option.none_or]

theorem find?_eq_none_of_all {α} {p : α → Bool} {l : List α}
    (h : ∀ x ∈ l, ¬ p x = true) : l.find? p = none :=
  List.find?_eq_none.mpr h

theorem any_eq_false_of_all {α} {p : α → Bool} {l : List α}
    (h : ∀ x ∈ l, ¬ p x = true) : l.any p = false :=
  List.any_eq_false.mpr h

theorem eq_singleton_of_mem_of_length_le_one {α} {l : List α} {a : α}
    (ha : a ∈ l) (hl : l.length ≤ 1) : l = [a] := by
  match l, ha with
  | [b], ha =>
    rw [List.mem_singleton] at ha
    rw [ha]
  | b :: c :: t, _ =>
    simp only [List.length_cons, Nat.succ_le_succ_iff] at hl
    exact absurd hl (by simp)

theorem verifyJWT_payload {env : Env} {now : Nat} {t : Jwt} {p : JwtPayload}
    (h : verifyJWT env now t = some p) : p = t.payload := by
  unfold verifyJWT at h
  split at h
  · exact absurd h (by simp)
  · split at h
    · exact absurd h (by simp)
    · exact (Option.some_inj.mp h).symm

theorem verifyJWT_self_sig_not_expired {env : Env} {now : Nat} {t : Jwt}
    (hsig : t.sig = jwtSecretOf env) (hexp : ¬ t.exp ≤ now / 1000) :
    verifyJWT env now t = some t.payload := by
  unfold verifyJWT
  rw [if_neg (by simp [hsig]), if_neg hexp]

theorem verifyJWT_expired {env : Env} {now : Nat} {t : Jwt}
    (hexp : t.exp ≤ now / 1000) : verifyJWT env now t = none := by
  simp [verifyJWT, hexp]

theorem insertUser_of_fresh (u : User) (db : DB)
    (h : ∀ v ∈ db.users, v.id ≠ u.id ∧ v.email ≠ u.email) :
    insertUser u db = some { db with users := db.users ++ [u] } := by
  have hany : (db.users.any fun v => v.id == u.id || v.email == u.email)
      = false :=
    any_eq_false_of_all fun v hv => by
      simp only [Bool.or_eq_true, beq_iff_eq, not_or]
      exact h v hv
  simp [insertUser, hany]

theorem insertSession_of_fresh (s : Session) (db : DB)
    (h : ∀ v ∈ db.userSessions, v.id ≠ s.id ∧ v.token ≠ s.token) :
    insertSession s db = some { db with userSessions := db.userSessions ++ [s] } := by
  have hany : (db.userSessions.any fun v => v.id == s.id || v.token == s.token)
      = false :=
    any_eq_false_of_all fun v hv => by
      simp only [Bool.or_eq_true, beq_iff_eq, not_or]
      exact h v hv
  simp [insertSession, hany]

theorem insertOAuthAccount_of_fresh (a : OAuthAccount) (db : DB)
    (h : ∀ v ∈ db.oauthAccounts, v.id ≠ a.id) :
    insertOAuthAccount a db =
      some { db with oauthAccounts := db.oauthAccounts ++ [a] } := by
  have hany : (db.oauthAccounts.any fun v => v.id == a.id) = false :=
    any_eq_false_of_all fun v hv => by
      simp only [beq_iff_eq]
      exact h v hv
  simp [insertOAuthAccount, hany]

theorem insertEmailVerification_of_fresh (v : EmailVerification) (db : DB)
    (h : ∀ x ∈ db.emailVerifications, x.id ≠ v.id) :
    insertEmailVerification v db =
      some { db with emailVerifications := db.emailVerifications ++ [v] } := by
  have hany : (db.emailVerifications.any fun x => x.id == v.id) = false :=
    any_eq_false_of_all fun x hx => by
      simp only [beq_iff_eq]
      exact h x hx
  simp [insertEmailVerification, hany]

/-- Full evaluation of a successful createSessionForUser call. -/
theorem createSessionForUser_success (env : Env) (t0 : Nat) (w : World)
    {uid : Nat} {u' : User}
    (hfree : ∀ v ∈ w.db.userSessions, v.id ≠ w.nextId ∧ v.token ≠ w.nextId)
    (hfind : w.db.users.find? (fun x => x.id == uid) = some u') :
    createSessionForUser env t0 uid w =
      (some { token := generateJWT env t0 uid (some u'.email) (some w.nextId)
              expiresAt := t0 + 7 * 24 * 60 * 60 * 1000 },
        { w with nextId := w.nextId + 1
                 db := { w.db with userSessions := w.db.userSessions ++
                   [{ id := w.nextId, userId := uid, token := w.nextId
                      expiresAt := t0 + 7 * 24 * 60 * 60 * 1000
                      createdAt := t0 }] } }) := by
  have hins := insertSession_of_fresh
    { id := w.nextId, userId := uid, token := w.nextId
      expiresAt := t0 + 7 * 24 * 60 * 60 * 1000, createdAt := t0 }
    w.db hfree
  simp only [createSessionForUser, uuidv4, tickId]
  rw [hins]
  simp only [hfind]

/-- validateToken can only resolve a session row matching both the id
and the owner claims; with no session row bearing the claimed id, it
fails. -/
theorem validateToken_none_of_no_session {env : Env} {now : Nat}
    {tok : Jwt} {w : World} {s : Nat}
    (htk : tok.payload.sessionId = some s)
    (hgone : ∀ se ∈ w.db.userSessions, se.id ≠ s) :
    (validateToken env now tok w).1 = none := by
  cases hv : verifyJWT env now tok with
  | none => simp [validateToken, hv]
  | some p =>
    have hp : p = tok.payload := verifyJWT_payload hv
    subst hp
    have hfind : w.db.userSessions.find?
        (fun se => se.id == s && se.userId == tok.payload.userId) = none :=
      find?_eq_none_of_all fun se hse => by
        simp only [Bool.and_eq_true, beq_iff_eq]
        intro hcon
        exact hgone se hse hcon.1
    simp [validateToken, hv, htk, hfind]

/-! ## C9: the resource authorization predicate -/

/-- C9: canAccessStory grants access exactly when the subject owns the
story, or the story is public, or the subject carries the administrative
role in its Clerk record; in particular a non-owner non-admin subject is
denied a private story, the owner is allowed, and any subject may read a
public story. -/
theorem canAccessStory_iff_owner_public_admin
    (clerkUsers : List ClerkUser) (userId : Nat) (story : Story) :
    canAccessStory clerkUsers userId story =
      (story.userId == userId || story.isPublic
        || hasAdminRole clerkUsers userId) := by
  unfold canAccessStory hasAdminRole
  by_cases h1 : story.userId == userId
  · simp [h1]
  · by_cases h2 : story.isPublic
    · simp [Bool.not_eq_true] at h1
      simp [h1, h2]
    · simp only [Bool.not_eq_true] at h1
      simp only [Bool.not_eq_true] at h2
      cases getClerkUser clerkUsers userId <;> simp [h1, h2]

/-! ## C3: uniform login failure -/

/-- C3: a login against a store with no subject under the email, and a
login against a store where every subject under the email has either no
password hash or a hash the supplied password fails bcrypt comparison
against, return the very same failure value (the bare null), so the
caller cannot distinguish an unknown email from a wrong password or an
OAuth-only account. -/
theorem login_failure_uniform (env : Env) (now1 now2 : Nat)
    (email1 password1 email2 password2 : String) (w1 w2 : World)
    (h1 : ∀ u ∈ w1.db.users, u.email ≠ normalizeEmail email1)
    (h2 : ∀ u ∈ w2.db.users, u.email = normalizeEmail email2 →
      (u.password.all fun d => !(bcryptCompare password2 d)) = true) :
    (authenticateUser env now1 email1 password1 w1).1 = none ∧
    (authenticateUser env now2 email2 password2 w2).1 = none ∧
    (authenticateUser env now1 email1 password1 w1).1 =
      (authenticateUser env now2 email2 password2 w2).1 := by
  have hfind1 : w1.db.users.find?
      (fun u => u.email == normalizeEmail email1) = none :=
    find?_eq_none_of_all fun u hu => by
      simp only [beq_iff_eq]
      exact h1 u hu
  have hc1 : (authenticateUser env now1 email1 password1 w1).1 = none := by
    simp [authenticateUser, hfind1]
  have hc2 : (authenticateUser env now2 email2 password2 w2).1 = none := by
    cases hfind : w2.db.users.find?
        (fun u => u.email == normalizeEmail email2) with
    | none => simp [authenticateUser, hfind]
    | some u =>
      have hmem : u ∈ w2.db.users := List.mem_of_find?_eq_some hfind
      have hpe : u.email = normalizeEmail email2 := by
        have := List.find?_some hfind
        simpa [beq_iff_eq] using this
      have hall := h2 u hmem hpe
      cases hpw : u.password with
      | none => simp [authenticateUser, hfind, hpw]
      | some d =>
        rw [hpw] at hall
        simp only [Option.all_some, Bool.not_eq_true'] at hall
        simp [authenticateUser, hfind, hpw, hall]
  exact ⟨hc1, hc2, by rw [hc1, hc2]⟩

/-- C3 witness: a login for an unregistered address and a login for the
registered address with the wrong password both fail identically. -/
theorem login_failure_uniform_witness :
    (authenticateUser egEnv 0 "bob@example.com" "pw" egWorld).1 = none ∧
    (authenticateUser egEnv 0 "alice@example.com" "wrong" egWorld).1 = none ∧
    (authenticateUser egEnv 0 "bob@example.com" "pw" egWorld).1 =
      (authenticateUser egEnv 0 "alice@example.com" "wrong" egWorld).1 :=
  login_failure_uniform egEnv 0 0 "bob@example.com" "pw"
    "alice@example.com" "wrong" egWorld egWorld
    (by decide) (by decide)

/-! ## C10: session-to-subject binding in validateToken -/

/-- C10: when the sessionId claim of a token names an existing unexpired
session whose owner differs from the userId claim (and every session row
under that id has a different owner), validateToken fails: a session row
is resolved only when both its id and its owner match the token. -/
theorem validateToken_requires_owner_match (env : Env) (now : Nat)
    (tok : Jwt) (w : World) (sid : Nat)
    (htk : tok.payload.sessionId = some sid)
    (hex : ∃ se ∈ w.db.userSessions, se.id = sid ∧ ¬ se.expiresAt < now)
    (hmis : ∀ se ∈ w.db.userSessions, se.id = sid →
      se.userId ≠ tok.payload.userId) :
    (validateToken env now tok w).1 = none := by
  clear hex
  cases hv : verifyJWT env now tok with
  | none => simp [validateToken, hv]
  | some p =>
    have hp : p = tok.payload := verifyJWT_payload hv
    subst hp
    have hfind : w.db.userSessions.find?
        (fun se => se.id == sid && se.userId == tok.payload.userId) = none :=
      find?_eq_none_of_all fun se hse => by
        simp only [Bool.and_eq_true, beq_iff_eq]
        intro hcon
        exact hmis se hse hcon.1 hcon.2
    simp [validateToken, hv, htk, hfind]

/-- C10 witness: a signed unexpired token claiming session 5 but user 2,
against a store whose session 5 belongs to user 1, does not resolve. -/
theorem validateToken_requires_owner_match_witness :
    (validateToken egEnv 0 mismatchToken mismatchWorld).1 = none :=
  validateToken_requires_owner_match egEnv 0 mismatchToken mismatchWorld 5 rfl
    ⟨mismatchSession, by decide⟩ (by decide)

/-! ## C8: startup fails fast when the signing key is absent -/

/-- C8: in every non-development configuration where the signing key is
absent, the process fails fast and cannot start — config/passport
(part_007) constructs the JWT strategy at module load, and the
passport-jwt constructor throws on the missing secretOrKey before
app.listen is ever reached — and consequently the server never issues
nor verifies any token under the missing (or defaulted) key. -/
theorem missing_secret_process_fails_fast (env : Env)
    (hdev : env.nodeEnv ≠ "development") (hsec : env.jwtSecret = none) :
    startProcess env = Except.error "JwtStrategy requires a secret or key" ∧
    (∀ nowMs uid em sid, serverGenerateJWT env nowMs uid em sid = none) ∧
    (∀ nowMs t, serverVerifyJWT env nowMs t = none) := by
  have hstart :
      startProcess env =
        Except.error "JwtStrategy requires a secret or key" := by
    simp [startProcess, passportModuleLoad, newJwtStrategy, hsec]
  refine ⟨hstart, fun nowMs uid em sid => ?_, fun nowMs t => ?_⟩
  · simp [serverGenerateJWT, hstart]
  · simp [serverVerifyJWT, hstart]

/-- C8 witness: the concrete production configuration with the key
absent cannot start, issues no token, and verifies none. -/
theorem missing_secret_process_fails_fast_witness :
    startProcess prodEnvNoSecret =
      Except.error "JwtStrategy requires a secret or key" ∧
    serverGenerateJWT prodEnvNoSecret 0 1 none none = none ∧
    serverVerifyJWT prodEnvNoSecret 0 cxToken = none := by
  have h := missing_secret_process_fails_fast prodEnvNoSecret (by decide) rfl
  exact ⟨h.1, h.2.1 0 1 none none, h.2.2 0 cxToken⟩

/-- Full evaluation of sendVerificationEmail when the fresh record id is
unused (the insert then succeeds). -/
theorem sendVerificationEmail_success (now uid : Nat) (e : String)
    (w : World)
    (hfresh : ∀ x ∈ w.db.emailVerifications, x.id ≠ w.nextId) :
    sendVerificationEmail now uid e w =
      (w.emailWorks,
        { w with nextId := w.nextId + 1, codes := w.codes.tail
                 db := { w.db with emailVerifications :=
                   w.db.emailVerifications.filter (fun v => !(v.userId == uid))
                     ++ [{ id := w.nextId, userId := uid, email := e
                           verificationCode := generatedCode w
                           expiresAt := now + 15 * 60 * 1000
                           verified := false, createdAt := now }] } }) := by
  have hins := insertEmailVerification_of_fresh
    { id := w.nextId, userId := uid, email := e
      verificationCode := generatedCode w
      expiresAt := now + 15 * 60 * 1000
      verified := false, createdAt := now }
    { w.db with emailVerifications :=
        w.db.emailVerifications.filter (fun v => !(v.userId == uid)) }
    (fun x hx => hfresh x (List.mem_of_mem_filter hx))
  simp only [sendVerificationEmail, uuidv4, tickId, popCode]
  rw [hins]

/-! ## C1: validity window of a freshly created session -/

/-- C1 counterexample: for a session created at t0 = 999 the session row
expires at 604800999, yet validateToken already fails at 604800500,
strictly before that instant, because the token iat was floored to
second 0 and the JWT is expired from second 604800 on. -/
theorem token_fails_before_session_expiry :
    (createSessionForUser egEnv 999 0 egWorld).1 =
      some { token := cxToken, expiresAt := 604800999 } ∧
    604800500 < 604800999 ∧
    (validateToken egEnv 604800500 cxToken
      (createSessionForUser egEnv 999 0 egWorld).2).1 = none := by
  refine ⟨by decide, by decide, by decide⟩

/-- C1 (amended): a token minted by createSessionForUser at t0 resolves
through validateToken exactly at the instants now with
now / 1000 < t0 / 1000 + 604800, i.e. strictly before the second-
granularity JWT expiry; that instant is at most the session row expiry
t0 + 604800000 (with equality when t0 falls on a whole second), so
resolution in particular fails at every now at or past the session
expiry.  The session-row check itself only rejects rows with
expiresAt strictly below now. -/
theorem session_resolution_window (env : Env) (w : World) (u : User)
    (t0 now : Nat)
    (hu : u ∈ w.db.users)
    (hsid : ∀ s ∈ w.db.userSessions, s.id < w.nextId)
    (htks : ∀ s ∈ w.db.userSessions, s.token < w.nextId)
    (httl : env.jwtExpiresInSeconds = none) :
    ∃ r w1, createSessionForUser env t0 u.id w = (some r, w1) ∧
      r.expiresAt = t0 + 604800000 ∧
      (t0 / 1000 + 604800) * 1000 ≤ t0 + 604800000 ∧
      ((validateToken env now r.token w1).1.isSome =
        decide (now / 1000 < t0 / 1000 + 604800)) := by
  have hufind : (w.db.users.find? (fun x => x.id == u.id)).isSome :=
    List.find?_isSome.mpr ⟨u, hu, by simp⟩
  obtain ⟨u', hu'⟩ := Option.isSome_iff_exists.mp hufind
  have hfree : ∀ v ∈ w.db.userSessions, v.id ≠ w.nextId ∧ v.token ≠ w.nextId :=
    fun v hv => ⟨Nat.ne_of_lt (hsid v hv), Nat.ne_of_lt (htks v hv)⟩
  have hcs := createSessionForUser_success env t0 w hfree hu'
  have hbound : (t0 / 1000 + 604800) * 1000 ≤ t0 + 604800000 := by
    rw [Nat.add_mul]
    have := Nat.div_mul_le_self t0 1000
    omega
  refine ⟨_, _, hcs, rfl, hbound, ?_⟩
  set sess : Session :=
    { id := w.nextId, userId := u.id, token := w.nextId
      expiresAt := t0 + 7 * 24 * 60 * 60 * 1000, createdAt := t0 } with hsess
  set tok : Jwt :=
    generateJWT env t0 u.id (some u'.email) (some w.nextId) with htok
  have hexp : tok.exp = t0 / 1000 + 604800 := by
    simp [htok, generateJWT, httl]
  by_cases hnow : now / 1000 < t0 / 1000 + 604800
  · -- before the JWT expiry: full resolution succeeds
    have hver : verifyJWT env now tok = some tok.payload :=
      verifyJWT_self_sig_not_expired rfl (by rw [hexp]; omega)
    have hpay : tok.payload =
        { userId := u.id, email := some u'.email, sessionId := some w.nextId } := rfl
    have hfindold : w.db.userSessions.find?
        (fun s => s.id == w.nextId && s.userId == u.id) = none :=
      find?_eq_none_of_all fun s hs => by
        simp only [Bool.and_eq_true, beq_iff_eq, not_and]
        intro hc
        exact absurd hc (Nat.ne_of_lt (hsid s hs))
    have hfinds : (w.db.userSessions ++ [sess]).find?
        (fun s => s.id == w.nextId && s.userId == u.id) = some sess := by
      rw [find?_append_of_none hfindold]
      exact List.find?_cons_of_pos _ (by simp [hsess])
    have hnotexp : ¬ sess.expiresAt < now := by
      have h1 : now < (t0 / 1000 + 604800) * 1000 :=
        (Nat.div_lt_iff_lt_mul (by omega)).mp hnow
      simp only [hsess]
      show ¬ t0 + 7 * 24 * 60 * 60 * 1000 < now
      omega
    simp only [validateToken, hver, hpay, hfinds, if_neg hnotexp, hu']
    simp [hnow]
  · -- at or past the JWT expiry: verification already fails
    have hver : verifyJWT env now tok = none :=
      verifyJWT_expired (by rw [hexp]; omega)
    simp only [validateToken, hver]
    simp [hnow]

/-- C1 amended witness: instantiated for egUser in egWorld at t0 = 999
and now = 1000. -/
theorem session_resolution_window_witness :
    ∃ r w1, createSessionForUser egEnv 999 0 egWorld = (some r, w1) ∧
      r.expiresAt = 999 + 604800000 ∧
      (999 / 1000 + 604800) * 1000 ≤ 999 + 604800000 ∧
      ((validateToken egEnv 1000 r.token w1).1.isSome =
        decide (1000 / 1000 < 999 / 1000 + 604800)) :=
  session_resolution_window egEnv egWorld egUser 999 1000
    (by decide) (by decide) (by decide) rfl

/-! ## Session-growth lemmas: every operation only ever inserts session
rows bearing fresh identifiers -/

theorem insertUser_some_eq {u : User} {db db' : DB}
    (h : insertUser u db = some db') :
    db' = { db with users := db.users ++ [u] } := by
  unfold insertUser at h
  split at h
  · exact absurd h (by simp)
  · exact (Option.some_inj.mp h).symm

theorem insertSession_some_eq {s : Session} {db db' : DB}
    (h : insertSession s db = some db') :
    db' = { db with userSessions := db.userSessions ++ [s] } := by
  unfold insertSession at h
  split at h
  · exact absurd h (by simp)
  · exact (Option.some_inj.mp h).symm

theorem insertOAuthAccount_some_eq {a : OAuthAccount} {db db' : DB}
    (h : insertOAuthAccount a db = some db') :
    db' = { db with oauthAccounts := db.oauthAccounts ++ [a] } := by
  unfold insertOAuthAccount at h
  split at h
  · exact absurd h (by simp)
  · exact (Option.some_inj.mp h).symm

theorem insertEmailVerification_some_eq {v : EmailVerification} {db db' : DB}
    (h : insertEmailVerification v db = some db') :
    db' = { db with emailVerifications := db.emailVerifications ++ [v] } := by
  unfold insertEmailVerification at h
  split at h
  · exact absurd h (by simp)
  · exact (Option.some_inj.mp h).symm

theorem growsSessions_refl (w : World) : GrowsSessions w w :=
  ⟨Nat.le_refl _, fun _ hse => Or.inl hse⟩

theorem growsSessions_trans {w1 w2 w3 : World}
    (h12 : GrowsSessions w1 w2) (h23 : GrowsSessions w2 w3) :
    GrowsSessions w1 w3 := by
  refine ⟨Nat.le_trans h12.1 h23.1, fun se hse => ?_⟩
  rcases h23.2 se hse with h | h
  · exact h12.2 se h
  · exact Or.inr (Nat.le_trans h12.1 h)

theorem growsSessions_of_subset {w w' : World}
    (hn : w.nextId ≤ w'.nextId)
    (hs : ∀ se ∈ w'.db.userSessions, se ∈ w.db.userSessions) :
    GrowsSessions w w' :=
  ⟨hn, fun se hse => Or.inl (hs se hse)⟩

theorem growsSessions_step {w wm w' : World}
    (hg : GrowsSessions wm w')
    (h1 : w.nextId ≤ wm.nextId)
    (h2 : wm.db.userSessions = w.db.userSessions) : GrowsSessions w w' :=
  growsSessions_trans (growsSessions_of_subset h1 (fun se hse => h2 ▸ hse)) hg

theorem createSessionForUser_grows (env : Env) (now uid : Nat) (w : World) :
    GrowsSessions w (createSessionForUser env now uid w).2 := by
  simp only [createSessionForUser, uuidv4, tickId]
  split
  · exact growsSessions_of_subset (by simp) (fun se hse => hse)
  next db heq =>
    have hdb := insertSession_some_eq heq
    subst hdb
    split
    all_goals
      refine ⟨by simp, fun se hse => ?_⟩
      simp only [List.mem_append, List.mem_singleton] at hse
      rcases hse with h | h
      · exact Or.inl h
      · subst h
        exact Or.inr (Nat.le_refl _)

theorem sendVerificationEmail_grows (now uid : Nat) (e : String) (w : World) :
    GrowsSessions w (sendVerificationEmail now uid e w).2 := by
  simp only [sendVerificationEmail, uuidv4, tickId, popCode]
  split
  · exact growsSessions_of_subset (by simp) (fun se hse => hse)
  next db heq =>
    have hdb := insertEmailVerification_some_eq heq
    subst hdb
    exact growsSessions_of_subset (by simp) (fun se hse => hse)

theorem registerUser_grows (env : Env) (now : Nat) (e p : String)
    (f l : Option String) (w : World) :
    GrowsSessions w (registerUser env now e p f l w).2 := by
  simp only [registerUser, uuidv4, tickId]
  split
  · exact growsSessions_of_subset (by simp) (fun se hse => hse)
  next db heq =>
    have hdb := insertUser_some_eq heq
    subst hdb
    have hstep1 : GrowsSessions w
        { w with nextId := w.nextId + 1
                 db := { w.db with users := w.db.users ++
                   [{ id := w.nextId, email := normalizeEmail e
                      firstName := f.map trimString
                      lastName := l.map trimString
                      profileImageUrl := none
                      password := some (bcryptHash 12 p)
                      emailVerified := false, subscriptionLevel := .free
                      storiesGenerated := 0, createdAt := now
                      updatedAt := now }] } } :=
      growsSessions_of_subset (by simp) (fun se hse => hse)
    have hstep2 := sendVerificationEmail_grows now w.nextId (normalizeEmail e)
      { w with nextId := w.nextId + 1
               db := { w.db with users := w.db.users ++
                 [{ id := w.nextId, email := normalizeEmail e
                    firstName := f.map trimString
                    lastName := l.map trimString
                    profileImageUrl := none
                    password := some (bcryptHash 12 p)
                    emailVerified := false, subscriptionLevel := .free
                    storiesGenerated := 0, createdAt := now
                    updatedAt := now }] } }
    have hstep3 := createSessionForUser_grows env now w.nextId
      (sendVerificationEmail now w.nextId (normalizeEmail e)
        { w with nextId := w.nextId + 1
                 db := { w.db with users := w.db.users ++
                   [{ id := w.nextId, email := normalizeEmail e
                      firstName := f.map trimString
                      lastName := l.map trimString
                      profileImageUrl := none
                      password := some (bcryptHash 12 p)
                      emailVerified := false, subscriptionLevel := .free
                      storiesGenerated := 0, createdAt := now
                      updatedAt := now }] } }).2
    have hall := growsSessions_trans (growsSessions_trans hstep1 hstep2) hstep3
    split
    · exact hall
    · exact hall

theorem authenticateUser_grows (env : Env) (now : Nat) (e p : String)
    (w : World) :
    GrowsSessions w (authenticateUser env now e p w).2 := by
  simp only [authenticateUser]
  split
  · exact growsSessions_refl w
  next user heq =>
    split
    · exact growsSessions_refl w
    next digest hpw =>
      split
      next hb =>
        have hstep := createSessionForUser_grows env now user.id w
        split
        · exact hstep
        · exact hstep
      next hb => exact growsSessions_refl w

theorem validateToken_grows (env : Env) (now : Nat) (t : Jwt) (w : World) :
    GrowsSessions w (validateToken env now t w).2 := by
  simp only [validateToken]
  split
  · exact growsSessions_refl w
  next payload heq =>
    split
    · exact growsSessions_refl w
    next sid hsid =>
      split
      · exact growsSessions_refl w
      next session hfind =>
        split
        · exact growsSessions_of_subset (Nat.le_refl _)
            (fun se hse => List.mem_of_mem_filter hse)
        · split
          · exact growsSessions_refl w
          · exact growsSessions_refl w

theorem invalidateSession_grows (sid : Nat) (w : World) :
    GrowsSessions w (invalidateSession sid w).2 :=
  growsSessions_of_subset (Nat.le_refl _)
    (fun se hse => List.mem_of_mem_filter hse)

theorem cleanupExpiredSessions_grows (now : Nat) (w : World) :
    GrowsSessions w (cleanupExpiredSessions now w) :=
  growsSessions_of_subset (Nat.le_refl _)
    (fun se hse => List.mem_of_mem_filter hse)

theorem verifyEmail_grows (now : Nat) (e c : String) (w : World) :
    GrowsSessions w (verifyEmail now e c w).2 := by
  simp only [verifyEmail]
  split
  · exact growsSessions_refl w
  next verification heq =>
    split
    · exact growsSessions_refl w
    · exact growsSessions_of_subset (Nat.le_refl _) (fun se hse => hse)

theorem resendVerificationEmail_grows (now : Nat) (e : String) (w : World) :
    GrowsSessions w (resendVerificationEmail now e w).2 := by
  simp only [resendVerificationEmail]
  split
  · exact growsSessions_refl w
  next user heq =>
    split
    · exact growsSessions_refl w
    · exact sendVerificationEmail_grows now user.id user.email w

theorem createOAuthLink_grows (now : Nat) (d : OAuthUserData) (user : User)
    (w : World) :
    GrowsSessions w (createOAuthLink now d user w).2 := by
  simp only [createOAuthLink, uuidv4, tickId]
  split
  · exact growsSessions_of_subset (by simp) (fun se hse => hse)
  next db heq =>
    have hdb := insertOAuthAccount_some_eq heq
    subst hdb
    exact growsSessions_of_subset (by simp) (fun se hse => hse)

theorem findOrCreateOAuthUser_grows (now : Nat) (d : OAuthUserData)
    (w : World) :
    GrowsSessions w (findOrCreateOAuthUser now d w).2 := by
  simp only [findOrCreateOAuthUser, uuidv4, tickId]
  split
  next account heq =>
    split
    · exact growsSessions_refl w
    · exact growsSessions_of_subset (Nat.le_refl _) (fun se hse => hse)
  next heq =>
    split
    next user hmail => exact createOAuthLink_grows now d user w
    next hmail =>
      split
      · exact growsSessions_of_subset (by simp) (fun se hse => hse)
      next db hins =>
        have hdb := insertUser_some_eq hins
        subst hdb
        exact growsSessions_step (createOAuthLink_grows now d _ _) (by simp) rfl

theorem applyOp_grows (env : Env) (w : World) (op : Op) :
    GrowsSessions w (applyOp env w op) := by
  cases op with
  | register now e p f l => exact registerUser_grows env now e p f l w
  | login now e p => exact authenticateUser_grows env now e p w
  | createSession now uid => exact createSessionForUser_grows env now uid w
  | validate now t => exact validateToken_grows env now t w
  | logout sid => exact invalidateSession_grows sid w
  | cleanup now => exact cleanupExpiredSessions_grows now w
  | sendVerification now uid e => exact sendVerificationEmail_grows now uid e w
  | verifyCode now e c => exact verifyEmail_grows now e c w
  | resendVerification now e => exact resendVerificationEmail_grows now e w
  | oauthLogin now d => exact findOrCreateOAuthUser_grows now d w

theorem applyOps_grows (env : Env) (ops : List Op) (w : World) :
    GrowsSessions w (applyOps env ops w) := by
  induction ops generalizing w with
  | nil => exact growsSessions_refl w
  | cons op rest ih =>
    exact growsSessions_trans (applyOp_grows env w op)
      (ih (applyOp env w op))

theorem sessionGone_preserved {s : Nat} {w w' : World}
    (hgone : ∀ se ∈ w.db.userSessions, se.id ≠ s)
    (hlt : s < w.nextId) (hg : GrowsSessions w w') :
    ∀ se ∈ w'.db.userSessions, se.id ≠ s := by
  intro se hse
  rcases hg.2 se hse with h | h
  · exact hgone se h
  · omega

/-! ## C5: revocation is idempotent and permanent -/

/-- C5: invalidateSession reports success in every state, including when
the session does not exist or was already revoked; and once it has run
for a session identifier drawn from the id supply, no later sequence of
subsystem operations can make validateToken accept any token bound to
that session again, whatever TTL the session row had left. -/
theorem revoked_session_never_resolves (env : Env) (w : World) (s : Nat)
    (ops : List Op) (now : Nat) (tok : Jwt)
    (hlt : s < w.nextId) (htk : tok.payload.sessionId = some s) :
    (invalidateSession s w).1 = true ∧
    (validateToken env now tok
      (applyOps env ops (invalidateSession s w).2)).1 = none := by
  refine ⟨rfl, ?_⟩
  have hgone0 : ∀ se ∈ ((invalidateSession s w).2).db.userSessions,
      se.id ≠ s := by
    intro se hse
    have := List.of_mem_filter hse
    simpa using this
  have hgone := sessionGone_preserved hgone0 hlt
    (applyOps_grows env ops (invalidateSession s w).2)
  exact validateToken_none_of_no_session htk hgone

/-- C5 witness: revoking session 5 and then performing further
operations (a session creation and a cleanup) leaves the revoked token
unresolvable. -/
theorem revoked_session_never_resolves_witness :
    (invalidateSession 5 mismatchWorld).1 = true ∧
    (validateToken egEnv 7 mismatchToken
      (applyOps egEnv [Op.createSession 6 0, Op.cleanup 7]
        (invalidateSession 5 mismatchWorld).2)).1 = none :=
  revoked_session_never_resolves egEnv mismatchWorld 5
    [Op.createSession 6 0, Op.cleanup 7] 7 mismatchToken (by decide) rfl

/-! ## C2: duplicate registration -/

/-- C2 counterexample: registering Alice@example.com twice in a row, the
first call succeeds; the second is NOT answered with Conflict but with
the 500-style serverError, because the controller's duplicate pre-check
compares the raw email against the lowercased stored one and misses, and
the unique-constraint failure inside registerUser is reported as a
generic failure. -/
theorem second_register_not_conflict :
    (registerController egEnv 0 "Alice@example.com" "pw1" none none
      emptyWorld).1.isCreated = true ∧
    (registerController egEnv 1 "Alice@example.com" "pw2" none none
      (registerController egEnv 0 "Alice@example.com" "pw1" none none
        emptyWorld).2).1 =
      RegisterResponse.serverError "Failed to create user" := by
  constructor
  · decide
  · decide

/-- C2 (amended): once a subject is stored under the normalized email,
a second register call with any email normalizing to it fails and
creates no second user row; the failure kind is Conflict exactly when
the raw second email matches a stored row (the pre-check is an exact
string match), and otherwise a generic serverError produced by the
caught unique-constraint violation. -/
theorem duplicate_register_no_second_record (env : Env) (now : Nat)
    (email password : String) (firstName lastName : Option String)
    (w : World)
    (hne : (email == "") = false) (hpw : (password == "") = false)
    (hstored : ∃ u ∈ w.db.users, u.email = normalizeEmail email) :
    (registerController env now email password firstName lastName w).1 =
      (if (getUserByEmail email w.db).isSome then
        RegisterResponse.conflict "User with this email already exists"
      else RegisterResponse.serverError "Failed to create user") ∧
    ((registerController env now email password firstName lastName w).2).db.users
      = w.db.users := by
  obtain ⟨u0, hu0, he0⟩ := hstored
  simp only [registerController, hne, hpw, Bool.or_self, Bool.false_eq_true,
    if_false]
  cases hg : getUserByEmail email w.db with
  | some u =>
    constructor
    · simp [hg]
    · rfl
  | none =>
    have hins : insertUser
        { id := w.nextId, email := normalizeEmail email
          password := some (bcryptHash 12 password)
          firstName := firstName.map trimString
          lastName := lastName.map trimString
          emailVerified := false, subscriptionLevel := .free
          storiesGenerated := 0, createdAt := now, updatedAt := now }
        w.db = none := by
      unfold insertUser
      rw [if_pos]
      exact List.any_eq_true.mpr ⟨u0, hu0, by simp [he0]⟩
    simp only [registerUser, uuidv4, tickId, hins]
    constructor
    · simp [hg]
    · trivial

/-- C2 amended witness: a register call for Alice@example.com against
the store already holding alice@example.com. -/
theorem duplicate_register_no_second_record_witness :
    (registerController egEnv 5 "Alice@example.com" "pw" none none
      egWorld).1 =
      (if (getUserByEmail "Alice@example.com" egWorld.db).isSome then
        RegisterResponse.conflict "User with this email already exists"
      else RegisterResponse.serverError "Failed to create user") ∧
    ((registerController egEnv 5 "Alice@example.com" "pw" none none
      egWorld).2).db.users = egWorld.db.users :=
  duplicate_register_no_second_record egEnv 5 "Alice@example.com" "pw"
    none none egWorld (by decide) (by decide) ⟨egUser, by decide, by decide⟩

/-! ## C6: a resend supersedes the previous verification code -/

/-- C6: sendVerificationEmail deletes every verification record of the
subject before inserting the new one, so afterwards exactly one
unverified record exists for the subject; when the regenerated code
differs from the previously issued one, the old code no longer verifies
(uniform invalid-code failure), while the newly issued code verifies
before its expiry. -/
theorem resend_invalidates_previous_code (now now2 uid : Nat)
    (e oldCode : String) (w : World)
    (hvids : ∀ v ∈ w.db.emailVerifications, v.id < w.nextId)
    (howner : ∀ v ∈ w.db.emailVerifications, v.email = e → v.userId = uid)
    (hcode : ¬ generatedCode w = oldCode)
    (hexp : ¬ now + 15 * 60 * 1000 < now2) :
    ((sendVerificationEmail now uid e w).2).db.emailVerifications.filter
        (fun v => v.userId == uid)
      = [{ id := w.nextId, userId := uid, email := e
           verificationCode := generatedCode w
           expiresAt := now + 15 * 60 * 1000
           verified := false, createdAt := now }] ∧
    (verifyEmail now2 e oldCode (sendVerificationEmail now uid e w).2).1 =
      some { success := false
             message := "Invalid verification code or email" } ∧
    (verifyEmail now2 e (generatedCode w)
        (sendVerificationEmail now uid e w).2).1 =
      some { success := true, message := "Email verified successfully" } := by
  have hsend := sendVerificationEmail_success now uid e w
    (fun x hx => Nat.ne_of_lt (hvids x hx))
  set newRec : EmailVerification :=
    { id := w.nextId, userId := uid, email := e
      verificationCode := generatedCode w
      expiresAt := now + 15 * 60 * 1000
      verified := false, createdAt := now } with hnewRec
  set kept : List EmailVerification :=
    w.db.emailVerifications.filter (fun v => !(v.userId == uid)) with hkept
  have hkeptMem : ∀ v ∈ kept, v ∈ w.db.emailVerifications ∧ v.userId ≠ uid := by
    intro v hv
    rw [hkept] at hv
    refine ⟨List.mem_of_mem_filter hv, ?_⟩
    have := List.of_mem_filter hv
    simpa using this
  have hkeptEmail : ∀ v ∈ kept, v.email ≠ e := by
    intro v hv hcontra
    exact (hkeptMem v hv).2 (howner v (hkeptMem v hv).1 hcontra)
  refine ⟨?_, ?_, ?_⟩
  · rw [hsend]
    simp only [List.filter_append]
    have h1 : kept.filter (fun v => v.userId == uid) = [] :=
      List.filter_eq_nil_iff.mpr fun v hv => by
        simp only [beq_iff_eq]
        exact (hkeptMem v hv).2
    rw [h1]
    simp [hnewRec]
  · rw [hsend]
    have hfind : (kept ++ [newRec]).find?
        (fun v => v.email == e && v.verificationCode == oldCode
          && v.verified == false) = none := by
      rw [find?_append_of_none (find?_eq_none_of_all fun v hv => by
        simp only [Bool.and_eq_true, beq_iff_eq]
        intro hcontra
        exact hkeptEmail v hv hcontra.1.1)]
      exact find?_eq_none_of_all fun v hv => by
        rw [List.mem_singleton] at hv
        subst hv
        simp only [Bool.and_eq_true, beq_iff_eq, hnewRec]
        intro hcontra
        exact hcode hcontra.1.2
    simp only [verifyEmail]
    rw [hfind]
  · rw [hsend]
    have hfind : (kept ++ [newRec]).find?
        (fun v => v.email == e && v.verificationCode == generatedCode w
          && v.verified == false) = some newRec := by
      rw [find?_append_of_none (find?_eq_none_of_all fun v hv => by
        simp only [Bool.and_eq_true, beq_iff_eq]
        intro hcontra
        exact hkeptEmail v hv hcontra.1.1)]
      exact List.find?_cons_of_pos _ (by simp [hnewRec])
    simp only [verifyEmail, hfind]
    rw [if_neg (show ¬ newRec.expiresAt < now2 from hexp)]

/-- C6 witness: after a resend for alice at time 1000 the old code
123456 no longer verifies and the freshly issued code 100005 does. -/
theorem resend_invalidates_previous_code_witness :
    ((sendVerificationEmail 1000 0 "alice@example.com"
        verifWorld).2).db.emailVerifications.filter
        (fun v => v.userId == 0)
      = [{ id := 2, userId := 0, email := "alice@example.com"
           verificationCode := generatedCode verifWorld
           expiresAt := 1000 + 15 * 60 * 1000
           verified := false, createdAt := 1000 }] ∧
    (verifyEmail 2000 "alice@example.com" "123456"
      (sendVerificationEmail 1000 0 "alice@example.com" verifWorld).2).1 =
      some { success := false
             message := "Invalid verification code or email" } ∧
    (verifyEmail 2000 "alice@example.com" (generatedCode verifWorld)
        (sendVerificationEmail 1000 0 "alice@example.com" verifWorld).2).1 =
      some { success := true, message := "Email verified successfully" } :=
  resend_invalidates_previous_code 1000 2000 0 "alice@example.com" "123456"
    verifWorld (by decide) (by decide) (by decide) (by decide)

/-! ## C4: register followed by login round-trips the credentials -/

/-- C4: from any store with fresh identifiers and no subject under the
normalized email, registerUser succeeds, a following authenticateUser
with the same raw credentials succeeds, and the subject id returned by
the login equals the one returned by the registration. -/
theorem register_then_login_roundtrip (env : Env) (now1 now2 : Nat)
    (email password : String) (firstName lastName : Option String)
    (w : World)
    (hemail : ∀ u ∈ w.db.users, u.email ≠ normalizeEmail email)
    (huid : ∀ u ∈ w.db.users, u.id < w.nextId)
    (hsid : ∀ s ∈ w.db.userSessions, s.id < w.nextId)
    (htks : ∀ s ∈ w.db.userSessions, s.token < w.nextId)
    (hvid : ∀ v ∈ w.db.emailVerifications, v.id < w.nextId) :
    ∃ r1 w1 r2 w2,
      registerUser env now1 email password firstName lastName w
        = (some r1, w1) ∧
      authenticateUser env now2 email password w1 = (some r2, w2) ∧
      r2.user.id = r1.user.id := by
  have hins1 : insertUser
      { id := w.nextId, email := normalizeEmail email
        password := some (bcryptHash 12 password)
        firstName := firstName.map trimString
        lastName := lastName.map trimString
        emailVerified := false, subscriptionLevel := .free
        storiesGenerated := 0, createdAt := now1, updatedAt := now1 }
      w.db = some { w.db with users := w.db.users ++
        [{ id := w.nextId, email := normalizeEmail email
           password := some (bcryptHash 12 password)
           firstName := firstName.map trimString
           lastName := lastName.map trimString
           emailVerified := false, subscriptionLevel := .free
           storiesGenerated := 0, createdAt := now1, updatedAt := now1 }] } :=
    insertUser_of_fresh _ _ fun v hv =>
      ⟨Nat.ne_of_lt (huid v hv), hemail v hv⟩
  have hsend := sendVerificationEmail_success now1 w.nextId
    (normalizeEmail email)
    { w with nextId := w.nextId + 1
             db := { w.db with users := w.db.users ++
               [{ id := w.nextId, email := normalizeEmail email
                  password := some (bcryptHash 12 password)
                  firstName := firstName.map trimString
                  lastName := lastName.map trimString
                  emailVerified := false, subscriptionLevel := .free
                  storiesGenerated := 0, createdAt := now1
                  updatedAt := now1 }] } }
    (fun x hx => by
      have h1 := hvid x hx
      show x.id ≠ w.nextId + 1
      omega)
  have hfindnew : (w.db.users ++
      [({ id := w.nextId, email := normalizeEmail email
          password := some (bcryptHash 12 password)
          firstName := firstName.map trimString
          lastName := lastName.map trimString
          emailVerified := false, subscriptionLevel := .free
          storiesGenerated := 0, createdAt := now1
          updatedAt := now1 } : User)]).find? (fun x => x.id == w.nextId) =
      some { id := w.nextId, email := normalizeEmail email
             password := some (bcryptHash 12 password)
             firstName := firstName.map trimString
             lastName := lastName.map trimString
             emailVerified := false, subscriptionLevel := .free
             storiesGenerated := 0, createdAt := now1
             updatedAt := now1 } := by
    rw [find?_append_of_none (find?_eq_none_of_all fun v hv => by
      simp only [beq_iff_eq]
      exact Nat.ne_of_lt (huid v hv))]
    exact List.find?_cons_of_pos _ (by simp)
  have hcs := createSessionForUser_success env now1
    { w with nextId := w.nextId + 1 + 1, codes := w.codes.tail
             db := { w.db with
               users := w.db.users ++
                 [{ id := w.nextId, email := normalizeEmail email
                    password := some (bcryptHash 12 password)
                    firstName := firstName.map trimString
                    lastName := lastName.map trimString
                    emailVerified := false, subscriptionLevel := .free
                    storiesGenerated := 0, createdAt := now1
                    updatedAt := now1 }]
               emailVerifications :=
                 w.db.emailVerifications.filter
                   (fun v => !(v.userId == w.nextId)) ++
                 [{ id := w.nextId + 1, userId := w.nextId
                    email := normalizeEmail email
                    verificationCode :=
                      toString (100000 + w.codes.headD 0 % 900000)
                    expiresAt := now1 + 900000
                    verified := false, createdAt := now1 }] } }
    (fun v hv => by
      have h1 := hsid v hv
      have h2 := htks v hv
      constructor
      · show v.id ≠ w.nextId + 1 + 1
        omega
      · show v.token ≠ w.nextId + 1 + 1
        omega)
    hfindnew
  have hbc : bcryptCompare password (bcryptHash 12 password) = true := by
    simp [bcryptCompare]
  have hcs2 := createSessionForUser_success env now2
    { w with nextId := w.nextId + 1 + 1 + 1, codes := w.codes.tail
             db := { w.db with
               users := w.db.users ++
                 [{ id := w.nextId, email := normalizeEmail email
                    password := some (bcryptHash 12 password)
                    firstName := firstName.map trimString
                    lastName := lastName.map trimString
                    emailVerified := false
                    subscriptionLevel := .free
                    storiesGenerated := 0, createdAt := now1
                    updatedAt := now1 }]
               userSessions := w.db.userSessions ++
                 [{ id := w.nextId + 1 + 1, userId := w.nextId
                    token := w.nextId + 1 + 1
                    expiresAt := now1 + 604800000
                    createdAt := now1 }]
               emailVerifications :=
                 w.db.emailVerifications.filter
                   (fun v => !(v.userId == w.nextId)) ++
                 [{ id := w.nextId + 1, userId := w.nextId
                    email := normalizeEmail email
                    verificationCode :=
                      toString (100000 + w.codes.headD 0 % 900000)
                    expiresAt := now1 + 900000
                    verified := false, createdAt := now1 }] } }
    (fun v hv => by
      rcases List.mem_append.mp hv with h | h
      · have h1 := hsid v h
        have h2 := htks v h
        constructor
        · show v.id ≠ w.nextId + 1 + 1 + 1
          omega
        · show v.token ≠ w.nextId + 1 + 1 + 1
          omega
      · rw [List.mem_singleton] at h
        subst h
        constructor
        · show w.nextId + 1 + 1 ≠ w.nextId + 1 + 1 + 1
          omega
        · show w.nextId + 1 + 1 ≠ w.nextId + 1 + 1 + 1
          omega)
    hfindnew
  have hfindmail : (w.db.users ++
      [({ id := w.nextId, email := normalizeEmail email
          password := some (bcryptHash 12 password)
          firstName := firstName.map trimString
          lastName := lastName.map trimString
          emailVerified := false, subscriptionLevel := .free
          storiesGenerated := 0, createdAt := now1
          updatedAt := now1 } : User)]).find?
      (fun u => u.email == normalizeEmail email) =
      some { id := w.nextId, email := normalizeEmail email
             password := some (bcryptHash 12 password)
             firstName := firstName.map trimString
             lastName := lastName.map trimString
             emailVerified := false, subscriptionLevel := .free
             storiesGenerated := 0, createdAt := now1
             updatedAt := now1 } := by
    rw [find?_append_of_none (find?_eq_none_of_all fun v hv => by
      simp only [beq_iff_eq]
      exact hemail v hv)]
    exact List.find?_cons_of_pos _ (by simp)
  have hreg1 : (registerUser env now1 email password firstName lastName w).1
      = some { user := { id := w.nextId, email := normalizeEmail email
                         firstName := firstName.map trimString
                         lastName := lastName.map trimString
                         subscriptionLevel := .free }
               token := generateJWT env now1 w.nextId
                 (some (normalizeEmail email))
                 (some (w.nextId + 1 + 1)) } := by
    simp only [registerUser, uuidv4, tickId, hins1, generatedCode, hsend, hcs]
  have hreg2 : (registerUser env now1 email password firstName lastName w).2
      = { w with nextId := w.nextId + 1 + 1 + 1, codes := w.codes.tail
                 db := { w.db with
                   users := w.db.users ++
                     [{ id := w.nextId, email := normalizeEmail email
                        password := some (bcryptHash 12 password)
                        firstName := firstName.map trimString
                        lastName := lastName.map trimString
                        emailVerified := false
                        subscriptionLevel := .free
                        storiesGenerated := 0, createdAt := now1
                        updatedAt := now1 }]
                   userSessions := w.db.userSessions ++
                     [{ id := w.nextId + 1 + 1, userId := w.nextId
                        token := w.nextId + 1 + 1
                        expiresAt := now1 + 604800000
                        createdAt := now1 }]
                   emailVerifications :=
                     w.db.emailVerifications.filter
                       (fun v => !(v.userId == w.nextId)) ++
                     [{ id := w.nextId + 1, userId := w.nextId
                        email := normalizeEmail email
                        verificationCode :=
                          toString (100000 + w.codes.headD 0 % 900000)
                        expiresAt := now1 + 900000
                        verified := false, createdAt := now1 }] } } := by
    simp only [registerUser, uuidv4, tickId, hins1, generatedCode, hsend, hcs]
  have hauth1 : (authenticateUser env now2 email password
      (registerUser env now1 email password firstName lastName w).2).1
      = some { user := { id := w.nextId, email := normalizeEmail email
                         firstName := firstName.map trimString
                         lastName := lastName.map trimString
                         subscriptionLevel := .free }
               token := generateJWT env now2 w.nextId
                 (some (normalizeEmail email))
                 (some (w.nextId + 1 + 1 + 1)) } := by
    rw [hreg2]
    simp only [authenticateUser, hfindmail, hbc, if_true, hcs2]
  refine ⟨_, (registerUser env now1 email password firstName lastName w).2,
    _, (authenticateUser env now2 email password
      (registerUser env now1 email password firstName lastName w).2).2,
    Prod.ext hreg1 rfl, Prod.ext hauth1 rfl, rfl⟩

/-- C4 witness: registering Bob@Example.com with hunter2 in the empty
store and logging in with the same credentials yields matching subject
ids. -/
theorem register_then_login_roundtrip_witness :
    ∃ r1 w1 r2 w2,
      registerUser egEnv 0 "Bob@Example.com" "hunter2" none none
        emptyWorld = (some r1, w1) ∧
      authenticateUser egEnv 1 "Bob@Example.com" "hunter2" w1
        = (some r2, w2) ∧
      r2.user.id = r1.user.id :=
  register_then_login_roundtrip egEnv 0 1 "Bob@Example.com" "hunter2"
    none none emptyWorld (by decide) (by decide) (by decide) (by decide)
    (by decide)

/-! ## C7: OAuth find-or-create is idempotent and upserts tokens -/

theorem find?_congr_fun {α} {p q : α → Bool} {l : List α}
    (h : ∀ x ∈ l, p x = q x) : l.find? p = l.find? q := by
  induction l with
  | nil => rfl
  | cons a t ih =>
    cases hpa : p a with
    | true =>
      rw [List.find?_cons_of_pos _ hpa,
        List.find?_cons_of_pos _ ((h a (List.mem_cons_self a t)).symm.trans hpa)]
    | false =>
      rw [List.find?_cons_of_neg _ (by simp [hpa]),
        List.find?_cons_of_neg _
          (by simp [← h a (List.mem_cons_self a t), hpa]),
        ih (fun x hx => h x (List.mem_cons_of_mem a hx))]

theorem refreshTokensRow_provider (now : Nat) (d : OAuthUserData)
    (a : OAuthAccount) : (refreshTokensRow now d a).provider = a.provider := by
  unfold refreshTokensRow
  split <;> rfl

theorem refreshTokensRow_accountId (now : Nat) (d : OAuthUserData)
    (a : OAuthAccount) :
    (refreshTokensRow now d a).providerAccountId = a.providerAccountId := by
  unfold refreshTokensRow
  split <;> rfl

theorem refreshTokensRow_userId (now : Nat) (d : OAuthUserData)
    (a : OAuthAccount) : (refreshTokensRow now d a).userId = a.userId := by
  unfold refreshTokensRow
  split <;> rfl

theorem refreshTokensRow_of_match {now : Nat} {d : OAuthUserData}
    {a : OAuthAccount} (h1 : a.provider = d.provider)
    (h2 : a.providerAccountId = d.providerAccountId) :
    refreshTokensRow now d a =
      { a with accessToken := some d.accessToken
               refreshToken := d.refreshToken
               idToken := d.idToken, updatedAt := now } := by
  unfold refreshTokensRow
  rw [if_pos (by simp [h1, h2])]

theorem createOAuthLink_success (now : Nat) (d : OAuthUserData)
    (user : User) (w : World)
    (hfresh : ∀ a ∈ w.db.oauthAccounts, a.id ≠ w.nextId) :
    createOAuthLink now d user w =
      (some user,
        { w with nextId := w.nextId + 1
                 db := { w.db with oauthAccounts := w.db.oauthAccounts ++
                   [{ id := w.nextId, userId := user.id
                      provider := d.provider
                      providerAccountId := d.providerAccountId
                      accessToken := some d.accessToken
                      refreshToken := d.refreshToken
                      idToken := d.idToken
                      createdAt := now, updatedAt := now }] } }) := by
  have hins := insertOAuthAccount_of_fresh
    { id := w.nextId, userId := user.id, provider := d.provider
      providerAccountId := d.providerAccountId
      accessToken := some d.accessToken
      refreshToken := d.refreshToken
      idToken := d.idToken
      createdAt := now, updatedAt := now } w.db hfresh
  simp only [createOAuthLink, uuidv4, tickId]
  rw [hins]

/-- When the joined lookup for the pair finds the single link row the
store holds for it, findOrCreateOAuthUser takes the refresh path: it
returns the linked user and updates that row's tokens in place. -/
theorem findOrCreateOAuthUser_repeat (now2 : Nat) (d1 d2 : OAuthUserData)
    (w1 : World) (L : OAuthAccount)
    (hLfind : w1.db.oauthAccounts.find? (oauthJoinMatch d2 w1.db) = some L)
    (hfilter : w1.db.oauthAccounts.filter (fun a =>
      a.provider == d1.provider
        && a.providerAccountId == d1.providerAccountId) = [L])
    (hp : d2.provider = d1.provider)
    (ha : d2.providerAccountId = d1.providerAccountId) :
    ∃ u2 w2, findOrCreateOAuthUser now2 d2 w1 = (some u2, w2) ∧
      u2.id = L.userId ∧
      (w2.db.oauthAccounts.filter (fun a =>
        a.provider == d1.provider
          && a.providerAccountId == d1.providerAccountId)).map
        (fun a => (a.accessToken, a.refreshToken, a.idToken))
        = [(some d2.accessToken, d2.refreshToken, d2.idToken)] := by
  have hpred := List.find?_some hLfind
  simp only [oauthJoinMatch, Bool.and_eq_true, beq_iff_eq] at hpred
  obtain ⟨⟨hLp, hLa⟩, hLany⟩ := hpred
  have hufind : (w1.db.users.find? (fun u => u.id == L.userId)).isSome :=
    List.find?_isSome.mpr (List.any_eq_true.mp hLany)
  obtain ⟨u2, hu2⟩ := Option.isSome_iff_exists.mp hufind
  have hu2id : u2.id = L.userId := by
    have := List.find?_some hu2
    simpa using this
  refine ⟨u2,
    { w1 with db := { w1.db with oauthAccounts := w1.db.oauthAccounts.map (refreshTokensRow now2 d2) } },
    ?_, hu2id, ?_⟩
  · simp only [findOrCreateOAuthUser, hLfind, hu2]
  · show ((w1.db.oauthAccounts.map (refreshTokensRow now2 d2)).filter
      (fun a => a.provider == d1.provider
        && a.providerAccountId == d1.providerAccountId)).map
      (fun a => (a.accessToken, a.refreshToken, a.idToken))
      = [(some d2.accessToken, d2.refreshToken, d2.idToken)]
    rw [List.filter_map]
    have hcongr : w1.db.oauthAccounts.filter
        ((fun a => a.provider == d1.provider
          && a.providerAccountId == d1.providerAccountId)
            ∘ refreshTokensRow now2 d2)
        = w1.db.oauthAccounts.filter (fun a =>
            a.provider == d1.provider
              && a.providerAccountId == d1.providerAccountId) :=
      List.filter_congr fun x hx => by
        simp [Function.comp, refreshTokensRow_provider,
          refreshTokensRow_accountId]
    rw [hcongr, hfilter]
    have hLmatch : refreshTokensRow now2 d2 L =
        { L with accessToken := some d2.accessToken
                 refreshToken := d2.refreshToken
                 idToken := d2.idToken, updatedAt := now2 } :=
      refreshTokensRow_of_match (by rw [hLp, hp]) (by rw [hLa, ha])
    simp [hLmatch]

/-- C7: calling findOrCreateOAuthUser twice for the same
(provider, providerAccountId) pair succeeds twice with the same subject
id, the store never holds more than one link row for the pair, and the
repeated call updates the stored access/refresh/id tokens in place. -/
theorem oauth_find_or_create_idempotent (now1 now2 : Nat)
    (d1 d2 : OAuthUserData) (w : World)
    (hp : d2.provider = d1.provider)
    (ha : d2.providerAccountId = d1.providerAccountId)
    (huid : ∀ u ∈ w.db.users, u.id < w.nextId)
    (haid : ∀ a ∈ w.db.oauthAccounts, a.id < w.nextId)
    (hju : ∀ a ∈ w.db.oauthAccounts,
      a.provider = d1.provider → a.providerAccountId = d1.providerAccountId →
        w.db.users.any (fun u => u.id == a.userId) = true)
    (hone : (w.db.oauthAccounts.filter (fun a =>
      a.provider == d1.provider
        && a.providerAccountId == d1.providerAccountId)).length ≤ 1) :
    ∃ u1 w1 u2 w2,
      findOrCreateOAuthUser now1 d1 w = (some u1, w1) ∧
      findOrCreateOAuthUser now2 d2 w1 = (some u2, w2) ∧
      u2.id = u1.id ∧
      (w2.db.oauthAccounts.filter (fun a =>
        a.provider == d1.provider
          && a.providerAccountId == d1.providerAccountId)).map
        (fun a => (a.accessToken, a.refreshToken, a.idToken))
        = [(some d2.accessToken, d2.refreshToken, d2.idToken)] := by
  cases hfind : w.db.oauthAccounts.find? (oauthJoinMatch d1 w.db) with
  | some a0 =>
    have ha0mem := List.mem_of_find?_eq_some hfind
    have hpred := List.find?_some hfind
    simp only [oauthJoinMatch, Bool.and_eq_true, beq_iff_eq] at hpred
    obtain ⟨⟨hprov, hpaid⟩, hany⟩ := hpred
    have hufind : (w.db.users.find? (fun u => u.id == a0.userId)).isSome :=
      List.find?_isSome.mpr (List.any_eq_true.mp hany)
    obtain ⟨u0, hu0⟩ := Option.isSome_iff_exists.mp hufind
    have hu0id : u0.id = a0.userId := by
      have := List.find?_some hu0
      simpa using this
    have hcall1 : findOrCreateOAuthUser now1 d1 w = (some u0,
        { w with db := { w.db with oauthAccounts := w.db.oauthAccounts.map (refreshTokensRow now1 d1) } }) := by
      simp only [findOrCreateOAuthUser, hfind, hu0]
    have hfilter0 : w.db.oauthAccounts.filter (fun a =>
        a.provider == d1.provider
          && a.providerAccountId == d1.providerAccountId) = [a0] :=
      eq_singleton_of_mem_of_length_le_one
        (List.mem_filter.mpr ⟨ha0mem, by simp [hprov, hpaid]⟩) hone
    have hLfind : ({ w with db := { w.db with oauthAccounts := w.db.oauthAccounts.map (refreshTokensRow now1 d1) } } :
          World).db.oauthAccounts.find?
        (oauthJoinMatch d2 { w.db with oauthAccounts := w.db.oauthAccounts.map (refreshTokensRow now1 d1) })
        = some (refreshTokensRow now1 d1 a0) := by
      show (w.db.oauthAccounts.map (refreshTokensRow now1 d1)).find? _
        = some (refreshTokensRow now1 d1 a0)
      rw [List.find?_map]
      have hcong : w.db.oauthAccounts.find?
          ((oauthJoinMatch d2 { w.db with oauthAccounts := w.db.oauthAccounts.map (refreshTokensRow now1 d1) })
              ∘ refreshTokensRow now1 d1)
          = w.db.oauthAccounts.find? (oauthJoinMatch d1 w.db) :=
        find?_congr_fun fun x hx => by
          simp [Function.comp, oauthJoinMatch, refreshTokensRow_provider,
            refreshTokensRow_accountId, refreshTokensRow_userId, hp, ha]
      rw [hcong, hfind]
      rfl
    have hfilter1 : ({ w with db := { w.db with oauthAccounts := w.db.oauthAccounts.map (refreshTokensRow now1 d1) } } :
          World).db.oauthAccounts.filter
        (fun a => a.provider == d1.provider
          && a.providerAccountId == d1.providerAccountId)
        = [refreshTokensRow now1 d1 a0] := by
      show (w.db.oauthAccounts.map (refreshTokensRow now1 d1)).filter _
        = [refreshTokensRow now1 d1 a0]
      rw [List.filter_map]
      have hcong : w.db.oauthAccounts.filter
          ((fun a => a.provider == d1.provider
            && a.providerAccountId == d1.providerAccountId)
              ∘ refreshTokensRow now1 d1)
          = w.db.oauthAccounts.filter (fun a =>
              a.provider == d1.provider
                && a.providerAccountId == d1.providerAccountId) :=
        List.filter_congr fun x hx => by
          simp [Function.comp, refreshTokensRow_provider,
            refreshTokensRow_accountId]
      rw [hcong, hfilter0]
      rfl
    obtain ⟨u2, w2, hcall2, hid2, htok⟩ :=
      findOrCreateOAuthUser_repeat now2 d1 d2 _ _ hLfind hfilter1 hp ha
    refine ⟨u0, _, u2, w2, hcall1, hcall2, ?_, htok⟩
    rw [hid2, refreshTokensRow_userId]
    exact hu0id.symm
  | none =>
    have hnopair : ∀ a ∈ w.db.oauthAccounts,
        ¬(a.provider = d1.provider
          ∧ a.providerAccountId = d1.providerAccountId) := by
      intro a hamem hcon
      have hnj := List.find?_eq_none.mp hfind a hamem
      apply hnj
      simp [oauthJoinMatch, hcon.1, hcon.2, hju a hamem hcon.1 hcon.2]
    have hfilternil : w.db.oauthAccounts.filter (fun a =>
        a.provider == d1.provider
          && a.providerAccountId == d1.providerAccountId) = [] :=
      List.filter_eq_nil_iff.mpr fun a hamem => by
        simp only [Bool.and_eq_true, beq_iff_eq]
        intro hcon
        exact hnopair a hamem hcon
    cases hmail : getUserByEmail d1.email w.db with
    | some user0 =>
      have hmem0 : user0 ∈ w.db.users := by
        unfold getUserByEmail at hmail
        exact List.mem_of_find?_eq_some hmail
      have hcl := createOAuthLink_success now1 d1 user0 w
        (fun a hm => Nat.ne_of_lt (haid a hm))
      have hcall1 : findOrCreateOAuthUser now1 d1 w = (some user0,
          { w with nextId := w.nextId + 1
                   db := { w.db with oauthAccounts := w.db.oauthAccounts ++
                     [{ id := w.nextId, userId := user0.id
                        provider := d1.provider
                        providerAccountId := d1.providerAccountId
                        accessToken := some d1.accessToken
                        refreshToken := d1.refreshToken
                        idToken := d1.idToken
                        createdAt := now1, updatedAt := now1 }] } }) := by
        simp only [findOrCreateOAuthUser, hfind, hmail, hcl]
      have hLfind : ({ w with
          nextId := w.nextId + 1
          db := { w.db with oauthAccounts := w.db.oauthAccounts ++
            [{ id := w.nextId, userId := user0.id
               provider := d1.provider
               providerAccountId := d1.providerAccountId
               accessToken := some d1.accessToken
               refreshToken := d1.refreshToken
               idToken := d1.idToken
               createdAt := now1, updatedAt := now1 }] } } :
            World).db.oauthAccounts.find?
          (oauthJoinMatch d2 { w.db with oauthAccounts :=
            w.db.oauthAccounts ++
            [{ id := w.nextId, userId := user0.id
               provider := d1.provider
               providerAccountId := d1.providerAccountId
               accessToken := some d1.accessToken
               refreshToken := d1.refreshToken
               idToken := d1.idToken
               createdAt := now1, updatedAt := now1 }] })
          = some { id := w.nextId, userId := user0.id
                   provider := d1.provider
                   providerAccountId := d1.providerAccountId
                   accessToken := some d1.accessToken
                   refreshToken := d1.refreshToken
                   idToken := d1.idToken
                   createdAt := now1, updatedAt := now1 } := by
        rw [show ({ w with
            nextId := w.nextId + 1
            db := { w.db with oauthAccounts := w.db.oauthAccounts ++
              [{ id := w.nextId, userId := user0.id
                 provider := d1.provider
                 providerAccountId := d1.providerAccountId
                 accessToken := some d1.accessToken
                 refreshToken := d1.refreshToken
                 idToken := d1.idToken
                 createdAt := now1, updatedAt := now1 }] } } :
              World).db.oauthAccounts = w.db.oauthAccounts ++
              [{ id := w.nextId, userId := user0.id
                 provider := d1.provider
                 providerAccountId := d1.providerAccountId
                 accessToken := some d1.accessToken
                 refreshToken := d1.refreshToken
                 idToken := d1.idToken
                 createdAt := now1, updatedAt := now1 }] from rfl]
        rw [find?_append_of_none (find?_eq_none_of_all fun a hamem => by
          simp only [oauthJoinMatch, Bool.and_eq_true, beq_iff_eq, hp, ha]
          intro hcon
          exact hnopair a hamem ⟨hcon.1.1, hcon.1.2⟩)]
        apply List.find?_cons_of_pos
        have hanyL : (w.db.users.any fun u => u.id == user0.id) = true :=
          List.any_eq_true.mpr ⟨user0, hmem0, by simp⟩
        simp [oauthJoinMatch, hp, ha, hanyL]
      have hfilter1 : ({ w with
          nextId := w.nextId + 1
          db := { w.db with oauthAccounts := w.db.oauthAccounts ++
            [{ id := w.nextId, userId := user0.id
               provider := d1.provider
               providerAccountId := d1.providerAccountId
               accessToken := some d1.accessToken
               refreshToken := d1.refreshToken
               idToken := d1.idToken
               createdAt := now1, updatedAt := now1 }] } } :
            World).db.oauthAccounts.filter
          (fun a => a.provider == d1.provider
            && a.providerAccountId == d1.providerAccountId)
          = [{ id := w.nextId, userId := user0.id
               provider := d1.provider
               providerAccountId := d1.providerAccountId
               accessToken := some d1.accessToken
               refreshToken := d1.refreshToken
               idToken := d1.idToken
               createdAt := now1, updatedAt := now1 }] := by
        show (w.db.oauthAccounts ++ _).filter _ = _
        rw [List.filter_append, hfilternil]
        simp
      obtain ⟨u2, w2, hcall2, hid2, htok⟩ :=
        findOrCreateOAuthUser_repeat now2 d1 d2 _ _ hLfind hfilter1 hp ha
      exact ⟨user0, _, u2, w2, hcall1, hcall2, hid2, htok⟩
    | none =>
      have hnomail : ∀ u ∈ w.db.users, u.email ≠ d1.email := by
        intro u hu
        have := List.find?_eq_none.mp
          (show w.db.users.find? (fun u => u.email == d1.email) = none
            from hmail) u hu
        simpa using this
      have hinsu : insertUser
          { id := w.nextId, email := d1.email
            firstName := if d1.firstName == "" then none
              else some d1.firstName
            lastName := if d1.lastName == "" then none
              else some d1.lastName
            profileImageUrl := d1.profileImageUrl
            emailVerified := true, subscriptionLevel := .free } w.db
          = some { w.db with users := w.db.users ++
            [{ id := w.nextId, email := d1.email
               firstName := if d1.firstName == "" then none
                 else some d1.firstName
               lastName := if d1.lastName == "" then none
                 else some d1.lastName
               profileImageUrl := d1.profileImageUrl
               emailVerified := true, subscriptionLevel := .free }] } :=
        insertUser_of_fresh _ _ fun v hv =>
          ⟨Nat.ne_of_lt (huid v hv), hnomail v hv⟩
      have hcl := createOAuthLink_success now1 d1
        { id := w.nextId, email := d1.email
          firstName := if d1.firstName == "" then none
            else some d1.firstName
          lastName := if d1.lastName == "" then none
            else some d1.lastName
          profileImageUrl := d1.profileImageUrl
          emailVerified := true, subscriptionLevel := .free }
        { w with nextId := w.nextId + 1
                 db := { w.db with users := w.db.users ++
                   [{ id := w.nextId, email := d1.email
                      firstName := if d1.firstName == "" then none
                        else some d1.firstName
                      lastName := if d1.lastName == "" then none
                        else some d1.lastName
                      profileImageUrl := d1.profileImageUrl
                      emailVerified := true
                      subscriptionLevel := .free }] } }
        (fun a hm => by
          have := haid a hm
          show a.id ≠ w.nextId + 1
          omega)
      have hcall1 : findOrCreateOAuthUser now1 d1 w = (some
          { id := w.nextId, email := d1.email
            firstName := if d1.firstName == "" then none
              else some d1.firstName
            lastName := if d1.lastName == "" then none
              else some d1.lastName
            profileImageUrl := d1.profileImageUrl
            emailVerified := true, subscriptionLevel := .free },
          { w with nextId := w.nextId + 1 + 1
                   db := { w.db with
                     users := w.db.users ++
                       [{ id := w.nextId, email := d1.email
                          firstName := if d1.firstName == "" then none
                            else some d1.firstName
                          lastName := if d1.lastName == "" then none
                            else some d1.lastName
                          profileImageUrl := d1.profileImageUrl
                          emailVerified := true
                          subscriptionLevel := .free }]
                     oauthAccounts := w.db.oauthAccounts ++
                       [{ id := w.nextId + 1, userId := w.nextId
                          provider := d1.provider
                          providerAccountId := d1.providerAccountId
                          accessToken := some d1.accessToken
                          refreshToken := d1.refreshToken
                          idToken := d1.idToken
                          createdAt := now1, updatedAt := now1 }] } }) := by
        simp only [findOrCreateOAuthUser, hfind, hmail, uuidv4, tickId,
          hinsu, hcl]
      have hLfind : ({ w with
          nextId := w.nextId + 1 + 1
          db := { w.db with
            users := w.db.users ++
              [{ id := w.nextId, email := d1.email
                 firstName := if d1.firstName == "" then none
                   else some d1.firstName
                 lastName := if d1.lastName == "" then none
                   else some d1.lastName
                 profileImageUrl := d1.profileImageUrl
                 emailVerified := true
                 subscriptionLevel := .free }]
            oauthAccounts := w.db.oauthAccounts ++
              [{ id := w.nextId + 1, userId := w.nextId
                 provider := d1.provider
                 providerAccountId := d1.providerAccountId
                 accessToken := some d1.accessToken
                 refreshToken := d1.refreshToken
                 idToken := d1.idToken
                 createdAt := now1, updatedAt := now1 }] } } :
            World).db.oauthAccounts.find?
          (oauthJoinMatch d2 { w.db with
            users := w.db.users ++
              [{ id := w.nextId, email := d1.email
                 firstName := if d1.firstName == "" then none
                   else some d1.firstName
                 lastName := if d1.lastName == "" then none
                   else some d1.lastName
                 profileImageUrl := d1.profileImageUrl
                 emailVerified := true
                 subscriptionLevel := .free }]
            oauthAccounts := w.db.oauthAccounts ++
              [{ id := w.nextId + 1, userId := w.nextId
                 provider := d1.provider
                 providerAccountId := d1.providerAccountId
                 accessToken := some d1.accessToken
                 refreshToken := d1.refreshToken
                 idToken := d1.idToken
                 createdAt := now1, updatedAt := now1 }] })
          = some { id := w.nextId + 1, userId := w.nextId
                   provider := d1.provider
                   providerAccountId := d1.providerAccountId
                   accessToken := some d1.accessToken
                   refreshToken := d1.refreshToken
                   idToken := d1.idToken
                   createdAt := now1, updatedAt := now1 } := by
        show (w.db.oauthAccounts ++ _).find? _ = _
        rw [find?_append_of_none (find?_eq_none_of_all fun a hamem => by
          simp only [oauthJoinMatch, Bool.and_eq_true, beq_iff_eq, hp, ha]
          intro hcon
          exact hnopair a hamem ⟨hcon.1.1, hcon.1.2⟩)]
        apply List.find?_cons_of_pos
        have hanyL : ((w.db.users ++
            [({ id := w.nextId, email := d1.email
                firstName := if d1.firstName == "" then none
                  else some d1.firstName
                lastName := if d1.lastName == "" then none
                  else some d1.lastName
                profileImageUrl := d1.profileImageUrl
                emailVerified := true
                subscriptionLevel := .free } : User)]).any
            fun u => u.id == w.nextId) = true :=
          List.any_eq_true.mpr
            ⟨{ id := w.nextId, email := d1.email
               firstName := if d1.firstName == "" then none
                 else some d1.firstName
               lastName := if d1.lastName == "" then none
                 else some d1.lastName
               profileImageUrl := d1.profileImageUrl
               emailVerified := true
               subscriptionLevel := .free },
             List.mem_append.mpr (Or.inr (List.mem_singleton.mpr rfl)),
             by simp⟩
        simp [oauthJoinMatch, hp, ha, hanyL]
      have hfilter1 : ({ w with
          nextId := w.nextId + 1 + 1
          db := { w.db with
            users := w.db.users ++
              [{ id := w.nextId, email := d1.email
                 firstName := if d1.firstName == "" then none
                   else some d1.firstName
                 lastName := if d1.lastName == "" then none
                   else some d1.lastName
                 profileImageUrl := d1.profileImageUrl
                 emailVerified := true
                 subscriptionLevel := .free }]
            oauthAccounts := w.db.oauthAccounts ++
              [{ id := w.nextId + 1, userId := w.nextId
                 provider := d1.provider
                 providerAccountId := d1.providerAccountId
                 accessToken := some d1.accessToken
                 refreshToken := d1.refreshToken
                 idToken := d1.idToken
                 createdAt := now1, updatedAt := now1 }] } } :
            World).db.oauthAccounts.filter
          (fun a => a.provider == d1.provider
            && a.providerAccountId == d1.providerAccountId)
          = [{ id := w.nextId + 1, userId := w.nextId
               provider := d1.provider
               providerAccountId := d1.providerAccountId
               accessToken := some d1.accessToken
               refreshToken := d1.refreshToken
               idToken := d1.idToken
               createdAt := now1, updatedAt := now1 }] := by
        show (w.db.oauthAccounts ++ _).filter _ = _
        rw [List.filter_append, hfilternil]
        simp
      obtain ⟨u2, w2, hcall2, hid2, htok⟩ :=
        findOrCreateOAuthUser_repeat now2 d1 d2 _ _ hLfind hfilter1 hp ha
      exact ⟨_, _, u2, w2, hcall1, hcall2, hid2, htok⟩

/-- C7 witness: two Google logins for the same external account g1
against the store holding alice (matched by email on the first call). -/
theorem oauth_find_or_create_idempotent_witness :
    ∃ u1 w1 u2 w2,
      findOrCreateOAuthUser 10
        { provider := .google, providerAccountId := "g1"
          email := "alice@example.com", firstName := "A", lastName := "B"
          profileImageUrl := none, accessToken := "at1"
          refreshToken := none, idToken := none } egWorld = (some u1, w1) ∧
      findOrCreateOAuthUser 20
        { provider := .google, providerAccountId := "g1"
          email := "alice@example.com", firstName := "A", lastName := "B"
          profileImageUrl := none, accessToken := "at2"
          refreshToken := some "rt2", idToken := none } w1 = (some u2, w2) ∧
      u2.id = u1.id ∧
      (w2.db.oauthAccounts.filter (fun a =>
        a.provider == Provider.google && a.providerAccountId == "g1")).map
        (fun a => (a.accessToken, a.refreshToken, a.idToken))
        = [(some "at2", some "rt2", none)] :=
  oauth_find_or_create_idempotent 10 20
    { provider := .google, providerAccountId := "g1"
      email := "alice@example.com", firstName := "A", lastName := "B"
      profileImageUrl := none, accessToken := "at1"
      refreshToken := none, idToken := none }
    { provider := .google, providerAccountId := "g1"
      email := "alice@example.com", firstName := "A", lastName := "B"
      profileImageUrl := none, accessToken := "at2"
      refreshToken := some "rt2", idToken := none }
    egWorld rfl rfl (by decide) (by decide) (by decide) (by decide)

end StoryWonder
